import Mathlib

/-!
# A shallow embedding of the SPARK35 HP-35 emulator

This file models the HP-35 CPU engine, display projector and keypad/script
shell of `spark35.ino` as executable Lean functions, and proves properties
of the microinstruction interpreter: BCD ripple-carry addition over digit
slices, frame conditions of the arithmetic family, decoder exclusivity,
the push/pop stack asymmetry, sequencer arming and disarming, the key
pending status bit, the PC-191 error trap, ROM geometry, and pointer
masking.

Machine bytes are modelled as `Nat` with the source's masks written with
the bitwise operators; register files are `List Nat` of length 16, status
is a `List Nat` of length 12.  `List.set` and `List.getD _ 0` model the
C array writes and reads.
-/

/-- Read one cell of a register array (C: `r[i]`, with 0 for an
out-of-range read so the function is total). -/
def rd (r : List Nat) (i : Nat) : Nat := r.getD i 0

/-- The decimal add-with-carry primitive (source `do_add`, which reads and
writes the global `carry`; here the carry is threaded explicitly:
`do_add cy x y = (digit, carry-out)`). -/
def do_add (cy x y : Nat) : Nat × Nat :=
  let res := x + y + cy
  if res > 9 then (res - 10, 1) else (res, 0)

/-- The decimal subtract-with-borrow primitive (source `do_sub`; the C
`int` intermediate is modelled on `Int`). -/
def do_sub (cy x y : Nat) : Nat × Nat :=
  let res : Int := (x : Int) - (y : Int) - (cy : Int)
  if res < 0 then ((res + 10).toNat, 1) else (res.toNat, 0)

/-- Copy of the low `WSIZE = 14` entries of `src` over `dst`
(C: `memcpy(dst, src, WSIZE)` on 16-byte register arrays). -/
def copyW (dst src : List Nat) : List Nat := src.take 14 ++ dst.drop 14

/-- The CPU register file and flags of the HP-35 engine
(source globals `a` .. `t`, `s`, `p`, `pc`, `ret`, `offset`, `carry`,
`prevCarry`, `key_code`, `key_rom`, `display_enable`, `display_update`,
plus `islock`/`count` which `process_rom` resets on a display event). -/
structure Cpu where
  a : List Nat
  b : List Nat
  c : List Nat
  d : List Nat
  e : List Nat
  f : List Nat
  m : List Nat
  t : List Nat
  s : List Nat
  p : Nat
  pc : Nat
  ret : Nat
  offset : Nat
  carry : Nat
  prevCarry : Nat
  key_code : Nat
  key_rom : Nat
  display_enable : Bool
  display_update : Bool
  islock : Bool
  count : Nat
deriving Repr, DecidableEq

/-- The whole emulator state: CPU plus the display/shell globals
(`msgnr`, `dbuf`, `darkscreen`, `isrun`, `memp`, `key`, `oldkey`, `fg`,
`brightness`). -/
structure Sys where
  cpu : Cpu
  msgnr : Nat
  dbuf : List Nat
  darkscreen : Bool
  isrun : Bool
  memp : Nat
  key : Nat
  oldkey : Nat
  fg : Nat
  brightness : Nat
deriving Repr, DecidableEq

/-- Names of the eight 16-nibble register arrays, used to quantify frame
properties uniformly. -/
inductive RegName where
  | A | B | C | D | E | F | M | T
deriving Repr, DecidableEq

/-- Projection of a register array out of the CPU state by name. -/
def Cpu.reg (st : Cpu) : RegName → List Nat
  | .A => st.a
  | .B => st.b
  | .C => st.c
  | .D => st.d
  | .E => st.e
  | .F => st.f
  | .M => st.m
  | .T => st.t

/-- Ascending C `for` loop over indices `first, first+1, ...` (`n` many),
threading the machine state through `body`. -/
def arLoop (body : Nat → Cpu → Cpu) (first n : Nat) (st : Cpu) : Cpu :=
  match n with
  | 0 => st
  | k + 1 => arLoop body (first + 1) k (body first st)

/-- Descending C `for` loop over indices `i, i-1, ...` (`n` many). -/
def arLoopDown (body : Nat → Cpu → Cpu) (i n : Nat) (st : Cpu) : Cpu :=
  match n with
  | 0 => st
  | k + 1 => arLoopDown body (i - 1) k (body i st)

/-- Status/pointer bit selector
(source `((fetch_h & 0x03) << 2) | ((fetch_l & 0xc0) >> 6)`). -/
def bitsel (h l : Nat) : Nat := ((h &&& 0x03) <<< 2) ||| ((l &&& 0xc0) >>> 6)

/-- Byte decrement of `p` masked to 4 bits (C `p = ((p - 1) & 0x0f)`;
the C subtraction is on `int` via two's complement, so for a 4-bit `p`
it equals `(p + 15) & 0x0f`). -/
def decP (p : Nat) : Nat := (p + 15) &&& 0x0f

/-- Slice boundary selector of the arithmetic family
(source `switch ((fetch_l >> 2) & 0x07)` setting `first`/`last`). -/
def sliceOf (code p : Nat) : Nat × Nat :=
  match code with
  | 0 => (p, p)
  | 1 => (3, 12)
  | 2 => (0, 2)
  | 3 => (0, 13)
  | 4 => (0, p)
  | 5 => (3, 13)
  | 6 => (2, 2)
  | 7 => (13, 13)
  | _ => (0, 0)

/-- Stage: latch a received key into the CPU
(source `if (key_code < _END) { key_rom = key_code; key_code = _END; s[0] = 1; }`). -/
def keyLatch (st : Cpu) : Cpu :=
  if st.key_code < 255 then
    {st with key_rom := st.key_code, key_code := 255, s := st.s.set 0 1}
  else st

/-- Stage: jump subroutine (source `(fetch_l & 0x03) == 0x01`). -/
def jsbStep (h l : Nat) (st : Cpu) : Cpu :=
  if l &&& 0x03 = 0x01 then
    {st with ret := st.pc, pc := ((l >>> 2) &&& 0x3f) ||| ((h <<< 6) &&& 0xc0)}
  else st

/-- Stage: return from subroutine (source `(fetch_l & 0x7F) == 0x30`). -/
def retStep (l : Nat) (st : Cpu) : Cpu :=
  if l &&& 0x7f = 0x30 then {st with pc := st.ret} else st

/-- Stage: select ROM bank (source `(fetch_l & 0x7F) == 0x10`). -/
def romStep (h l : Nat) (st : Cpu) : Cpu :=
  if l &&& 0x7f = 0x10 then
    {st with offset := ((h <<< 1) &&& 0x06) ||| ((l >>> 7) &&& 0x01)}
  else st

/-- Stage: jump to the latched key code (source `fetch_l == 0xD0`). -/
def jumpKeyStep (l : Nat) (st : Cpu) : Cpu :=
  if l = 0xd0 then {st with pc := st.key_rom, s := st.s.set 0 0} else st

/-- Stage: the nine `l3f = fetch_l & 0x3f` sub-ops (status test/set/clear,
pointer test/set/inc/dec, load constant). -/
def miscStep (h l : Nat) (st : Cpu) : Cpu :=
  let l3f := l &&& 0x3f
  let st := if l3f = 0x14 then {st with carry := rd st.s (bitsel h l)} else st
  let st := if l3f = 0x04 then {st with s := st.s.set (bitsel h l) 1} else st
  let st := if l3f = 0x24 then {st with s := st.s.set (bitsel h l) 0} else st
  let st := if l3f = 0x34 then {st with s := List.replicate 12 0} else st
  let st := if l3f = 0x2c then
      {st with carry := if st.p = bitsel h l then 1 else 0} else st
  let st := if l3f = 0x0c then {st with p := bitsel h l} else st
  let st := if l3f = 0x3c then {st with p := (st.p + 1) &&& 0x0f} else st
  let st := if l3f = 0x1c then {st with p := decP st.p} else st
  let st := if l3f = 0x18 then
      {st with c := st.c.set st.p (((l >>> 6) ||| (h <<< 2)) % 256), p := decP st.p}
    else st
  st

/-- Stage: the eight special moves gated on `h & 3` and `fetch_l & 0xef`
(C↔M swap, push, pop, M→C, rotate down, clear registers, display off,
display toggle). -/
def specialStep (h l : Nat) (st : Cpu) : Cpu :=
  let h3 := h &&& 0x03
  let lef := l &&& 0xef
  let st := if h3 = 0 ∧ lef = 0xa8 then
      {st with c := copyW st.c st.m, m := copyW st.m st.c} else st
  let st := if h3 = 1 ∧ lef = 0x28 then
      {st with f := copyW st.f st.e, e := copyW st.e st.d, d := copyW st.d st.c}
    else st
  let st := if h3 = 1 ∧ lef = 0xa8 then
      {st with a := copyW st.a st.d, d := copyW st.d st.e, e := copyW st.e st.f}
    else st
  let st := if h3 = 2 ∧ lef = 0xa8 then {st with c := copyW st.c st.m} else st
  let st := if h3 = 3 ∧ lef = 0x28 then
      {st with c := copyW st.c st.d, d := copyW st.d st.e,
               e := copyW st.e st.f, f := copyW st.f st.c}
    else st
  let st := if h3 = 3 ∧ lef = 0xa8 then
      arLoop (fun i s =>
        {s with a := s.a.set i 0, b := s.b.set i 0, c := s.c.set i 0,
                d := s.d.set i 0, e := s.e.set i 0, f := s.f.set i 0,
                m := s.m.set i 0}) 0 14 st
    else st
  let st := if h3 = 0 ∧ lef = 0x28 then
      {st with display_enable := false, display_update := false} else st
  let st := if h3 = 2 ∧ lef = 0x28 then
      {st with display_enable := !st.display_enable} else st
  st

/-- Stage: conditional branch
(source `(fetch_l & 0x03) == 0x03 && prevCarry != 1`). -/
def branchStep (h l : Nat) (st : Cpu) : Cpu :=
  if l &&& 0x03 = 0x03 ∧ st.prevCarry ≠ 1 then
    {st with pc := ((l &&& 0xfc) >>> 2) ||| ((h &&& 0x03) <<< 6)}
  else st

/-- Loop body of opcode `0x0e` (`A+C→C`): `c[i] = do_add(a[i], c[i])`. -/
def addBodyAC (i : Nat) (s : Cpu) : Cpu :=
  let r := do_add s.carry (rd s.a i) (rd s.c i)
  {s with c := s.c.set i r.1, carry := r.2}

/-- Loop body of opcode `0x1c` (`A+B→A`): `a[i] = do_add(a[i], b[i])`. -/
def addBodyAB (i : Nat) (s : Cpu) : Cpu :=
  let r := do_add s.carry (rd s.a i) (rd s.b i)
  {s with a := s.a.set i r.1, carry := r.2}

/-- Loop body of opcode `0x15` (`C+C→C`): `c[i] = do_add(c[i], c[i])`. -/
def addBodyCC (i : Nat) (s : Cpu) : Cpu :=
  let r := do_add s.carry (rd s.c i) (rd s.c i)
  {s with c := s.c.set i r.1, carry := r.2}

/-- The 32-entry opcode dispatch of the arithmetic/register family
(source `switch (op_code)`), given the already decoded slice `(first, last)`.
Each case is the source loop over `first..last`. -/
def arithSwitch (op first last : Nat) (st : Cpu) : Cpu :=
  let st := {st with carry := 0}
  if op = 0x00 then
    arLoop (fun i s => if rd s.b i ≠ 0 then {s with carry := 1} else s)
      first (last + 1 - first) st
  else if op = 0x01 then
    arLoop (fun i s => {s with b := s.b.set i 0}) first (last + 1 - first) st
  else if op = 0x02 then
    arLoop (fun i s =>
        let r := do_sub s.carry (rd s.a i) (rd s.c i)
        {s with t := s.t.set i r.1, carry := r.2}) first (last + 1 - first) st
  else if op = 0x03 then
    arLoop (fun i s => if rd s.c i ≠ 0 then {s with carry := 0} else s)
      first (last + 1 - first) {st with carry := 1}
  else if op = 0x04 then
    arLoop (fun i s => {s with c := s.c.set i (rd s.b i)}) first (last + 1 - first) st
  else if op = 0x05 then
    arLoop (fun i s =>
        let r := do_sub s.carry 0 (rd s.c i)
        {s with c := s.c.set i r.1, carry := r.2}) first (last + 1 - first) st
  else if op = 0x06 then
    arLoop (fun i s => {s with c := s.c.set i 0}) first (last + 1 - first) st
  else if op = 0x07 then
    arLoop (fun i s =>
        let r := do_sub s.carry 0 (rd s.c i)
        {s with c := s.c.set i r.1, carry := r.2}) first (last + 1 - first)
      {st with carry := 1}
  else if op = 0x08 then
    let st := arLoopDown (fun i s => {s with a := s.a.set i (rd s.a (i - 1))})
      last (last - first) st
    {st with a := st.a.set first 0}
  else if op = 0x09 then
    arLoop (fun i s => {s with b := s.b.set i (rd s.a i)}) first (last + 1 - first) st
  else if op = 0x0a then
    arLoop (fun i s =>
        let r := do_sub s.carry (rd s.a i) (rd s.c i)
        {s with c := s.c.set i r.1, carry := r.2}) first (last + 1 - first) st
  else if op = 0x0b then
    arLoop (fun i s =>
        let r := do_sub s.carry (rd s.c i) 0
        {s with c := s.c.set i r.1, carry := r.2}) first (last + 1 - first)
      {st with carry := 1}
  else if op = 0x0c then
    arLoop (fun i s => {s with a := s.a.set i (rd s.c i)}) first (last + 1 - first) st
  else if op = 0x0d then
    arLoop (fun i s => if rd s.c i ≠ 0 then {s with carry := 1} else s)
      first (last + 1 - first) st
  else if op = 0x0e then
    arLoop addBodyAC first (last + 1 - first) st
  else if op = 0x0f then
    arLoop (fun i s =>
        let r := do_add s.carry (rd s.c i) 0
        {s with c := s.c.set i r.1, carry := r.2}) first (last + 1 - first)
      {st with carry := 1}
  else if op = 0x10 then
    arLoop (fun i s =>
        let r := do_sub s.carry (rd s.a i) (rd s.b i)
        {s with t := s.t.set i r.1, carry := r.2}) first (last + 1 - first) st
  else if op = 0x11 then
    arLoop (fun i s => {s with b := s.b.set i (rd s.c i), c := s.c.set i (rd s.b i)})
      first (last + 1 - first) st
  else if op = 0x12 then
    let st := arLoop (fun i s => {s with c := s.c.set i (rd s.c (i + 1))})
      first (last - first) st
    {st with c := st.c.set last 0}
  else if op = 0x13 then
    arLoop (fun i s => if rd s.a i ≠ 0 then {s with carry := 0} else s)
      first (last + 1 - first) {st with carry := 1}
  else if op = 0x14 then
    let st := arLoop (fun i s => {s with b := s.b.set i (rd s.b (i + 1))})
      first (last - first) st
    {st with b := st.b.set last 0}
  else if op = 0x15 then
    arLoop addBodyCC first (last + 1 - first) st
  else if op = 0x16 then
    let st := arLoop (fun i s => {s with a := s.a.set i (rd s.a (i + 1))})
      first (last - first) st
    {st with a := st.a.set last 0}
  else if op = 0x17 then
    arLoop (fun i s => {s with a := s.a.set i 0}) first (last + 1 - first) st
  else if op = 0x18 then
    arLoop (fun i s =>
        let r := do_sub s.carry (rd s.a i) (rd s.b i)
        {s with a := s.a.set i r.1, carry := r.2}) first (last + 1 - first) st
  else if op = 0x19 then
    arLoop (fun i s => {s with a := s.a.set i (rd s.b i), b := s.b.set i (rd s.a i)})
      first (last + 1 - first) st
  else if op = 0x1a then
    arLoop (fun i s =>
        let r := do_sub s.carry (rd s.a i) (rd s.c i)
        {s with a := s.a.set i r.1, carry := r.2}) first (last + 1 - first) st
  else if op = 0x1b then
    arLoop (fun i s =>
        let r := do_sub s.carry (rd s.a i) 0
        {s with a := s.a.set i r.1, carry := r.2}) first (last + 1 - first)
      {st with carry := 1}
  else if op = 0x1c then
    arLoop addBodyAB first (last + 1 - first) st
  else if op = 0x1d then
    arLoop (fun i s => {s with a := s.a.set i (rd s.c i), c := s.c.set i (rd s.a i)})
      first (last + 1 - first) st
  else if op = 0x1e then
    arLoop (fun i s =>
        let r := do_add s.carry (rd s.a i) (rd s.c i)
        {s with a := s.a.set i r.1, carry := r.2}) first (last + 1 - first) st
  else if op = 0x1f then
    arLoop (fun i s =>
        let r := do_add s.carry (rd s.a i) 0
        {s with a := s.a.set i r.1, carry := r.2}) first (last + 1 - first)
      {st with carry := 1}
  else st

/-- The arithmetic opcode of an instruction
(source `op_code = ((fetch_l >> 5) & 0x07) | ((fetch_h << 3) & 0x18)`). -/
def opOf (h l : Nat) : Nat := ((l >>> 5) &&& 0x07) ||| ((h <<< 3) &&& 0x18)

/-- Stage: the arithmetic/register family
(source `(fetch_l & 0x03) == 0x02`). -/
def arithStep (h l : Nat) (st : Cpu) : Cpu :=
  if l &&& 0x03 = 0x02 then
    let fl := sliceOf ((l >>> 2) &&& 0x07) st.p
    arithSwitch (opOf h l) fl.1 fl.2 st
  else st

/-- Execution of one fetched microinstruction `(h, l)` on the CPU state,
in the exact order of the tests in `process_rom` (after the fetch and
before the display tail). -/
def instrStep (h l : Nat) (st : Cpu) : Cpu :=
  arithStep h l (branchStep h l (specialStep h l (miscStep h l
    (jumpKeyStep l (romStep h l (retStep l (jsbStep h l (keyLatch st))))))))
/-- The HP-35 microcode ROM image (source array `rom`, banks 0..2, byte pairs) -/
def rom : List Nat := [
  0, 221, 2, 255, 2, 36, 0, 23, 1, 68, 2, 68, 0, 132, 1, 16, 2, 209, 3, 251,
  0, 95, 0, 195, 1, 168, 3, 103, 2, 238, 3, 226, 0, 46, 0, 144, 3, 234, 3,
  234, 3, 234, 0, 107, 2, 105, 0, 168, 2, 168, 0, 255, 3, 234, 3, 234, 3, 234,
  0, 48, 0, 204, 0, 170, 1, 168, 0, 67, 1, 211, 0, 204, 0, 48, 0, 0, 0, 131,
  1, 68, 0, 68, 0, 187, 2, 68, 0, 159, 2, 132, 3, 11, 0, 46, 0, 144, 3, 40, 3,
  111, 3, 234, 3, 234, 3, 234, 0, 75, 2, 103, 3, 168, 1, 113, 3, 119, 3, 203,
  2, 206, 0, 196, 1, 219, 1, 40, 0, 52, 2, 206, 3, 117, 1, 46, 2, 250, 1, 22,
  3, 106, 3, 131, 1, 186, 3, 155, 3, 54, 3, 76, 3, 155, 0, 28, 1, 234, 0, 2,
  1, 51, 2, 196, 2, 214, 3, 166, 1, 20, 2, 31, 1, 125, 3, 119, 0, 210, 1, 114,
  0, 218, 3, 138, 1, 119, 0, 206, 0, 52, 1, 142, 3, 12, 1, 42, 1, 138, 1, 186,
  1, 163, 0, 170, 1, 122, 1, 95, 1, 76, 3, 170, 1, 20, 1, 11, 3, 42, 0, 42, 3,
  221, 1, 10, 2, 206, 3, 44, 2, 39, 3, 178, 1, 235, 2, 209, 0, 144, 1, 20, 3,
  219, 3, 178, 0, 250, 1, 142, 1, 186, 1, 255, 0, 218, 0, 170, 3, 76, 1, 22,
  1, 106, 2, 126, 1, 59, 2, 118, 2, 3, 0, 202, 3, 221, 2, 214, 1, 158, 3, 44,
  2, 79, 0, 142, 1, 238, 0, 76, 1, 18, 0, 60, 1, 162, 2, 63, 3, 174, 0, 236,
  3, 231, 0, 202, 1, 132, 1, 235, 0, 254, 1, 168, 0, 46, 3, 250, 3, 250, 1,
  250, 1, 250, 0, 74, 2, 143, 3, 174, 3, 166, 1, 166, 2, 159, 3, 174, 2, 38,
  0, 74, 2, 251, 2, 142, 3, 234, 0, 14, 2, 251, 2, 163, 2, 246, 0, 212, 2,
  211, 3, 126, 0, 254, 1, 212, 2, 223, 1, 40, 1, 196, 0, 206, 1, 110, 0, 190,
  1, 254, 2, 46, 0, 48, 0, 144, 1, 113, 1, 68, 3, 119, 2, 206, 1, 158, 2, 36,
  3, 63, 1, 250, 2, 4, 1, 84, 3, 55, 1, 234, 3, 27, 0, 40, 0, 20, 3, 31, 0,
  36, 0, 28, 3, 44, 3, 67, 2, 40, 2, 20, 3, 51, 1, 14, 1, 100, 0, 208, 1, 40,
  3, 174, 1, 117, 1, 196, 3, 221, 2, 189, 2, 43, 2, 214, 0, 28, 0, 172, 1, 23,
  3, 12, 2, 238, 2, 246, 3, 226, 3, 226, 0, 140, 0, 60, 3, 98, 3, 191, 0, 2,
  3, 171, 3, 226, 3, 46, 0, 48, 1, 4, 2, 212, 0, 115, 1, 191, 0, 254, 2, 164,
  3, 15, 1, 148, 3, 243, 0, 28, 2, 146, 1, 233, 2, 168, 3, 111, 3, 207, 3, 46,
  0, 161, 1, 168, 0, 161, 1, 168, 2, 84, 0, 39, 3, 174, 1, 84, 0, 75, 0, 222,
  2, 153, 1, 40, 2, 149, 2, 97, 0, 149, 1, 168, 2, 153, 2, 148, 3, 107, 2,
  238, 3, 226, 1, 38, 3, 166, 1, 106, 2, 146, 1, 186, 0, 103, 2, 210, 1, 234,
  0, 119, 2, 206, 2, 142, 1, 40, 2, 46, 1, 7, 2, 46, 1, 12, 3, 123, 1, 40, 3,
  174, 1, 162, 0, 183, 0, 174, 1, 142, 0, 138, 3, 47, 1, 142, 0, 84, 0, 151,
  2, 148, 1, 183, 1, 84, 0, 87, 0, 254, 3, 190, 0, 55, 2, 146, 3, 126, 0, 235,
  1, 254, 3, 50, 1, 210, 3, 46, 1, 46, 3, 82, 0, 239, 1, 168, 2, 206, 3, 178,
  3, 46, 1, 18, 1, 40, 3, 254, 3, 254, 0, 143, 0, 206, 0, 42, 2, 214, 2, 201,
  1, 98, 1, 168, 3, 174, 1, 12, 2, 145, 1, 140, 2, 109, 2, 12, 2, 109, 0, 140,
  2, 24, 2, 140, 2, 109, 2, 57, 2, 109, 3, 49, 1, 14, 2, 109, 0, 142, 3, 45,
  3, 49, 2, 174, 2, 153, 2, 84, 1, 179, 0, 254, 2, 97, 0, 100, 0, 206, 1, 98,
  1, 234, 0, 84, 2, 151, 2, 153, 3, 49, 2, 174, 2, 149, 3, 49, 2, 174, 2, 174,
  2, 85, 2, 174, 3, 173, 3, 49, 2, 140, 2, 113, 2, 57, 2, 12, 2, 117, 0, 140,
  2, 24, 1, 140, 2, 113, 1, 12, 2, 113, 2, 113, 3, 46, 2, 78, 3, 76, 1, 88, 3,
  239, 1, 140, 2, 24, 1, 152, 1, 88, 0, 152, 1, 24, 2, 88, 0, 84, 3, 107, 0,
  48, 2, 238, 3, 226, 0, 16, 1, 16, 1, 14, 2, 150, 2, 46, 2, 135, 1, 254, 3,
  14, 2, 131, 3, 142, 1, 16, 1, 16, 1, 74, 1, 16, 1, 226, 3, 78, 2, 163, 3,
  206, 1, 14, 0, 28, 2, 82, 0, 44, 2, 167, 0, 183, 1, 226, 3, 22, 2, 203, 3,
  150, 1, 22, 0, 28, 0, 44, 2, 207, 0, 183, 0, 28, 3, 150, 3, 111, 0, 16, 1,
  122, 1, 122, 2, 234, 3, 94, 2, 126, 3, 27, 1, 16, 2, 6, 3, 43, 0, 254, 3,
  46, 3, 14, 1, 16, 0, 206, 2, 204, 1, 216, 2, 24, 1, 88, 0, 216, 2, 88, 2,
  24, 0, 88, 1, 152, 0, 216, 1, 88, 3, 12, 0, 48, 0, 16, 3, 138, 3, 123, 1,
  98, 1, 254, 0, 44, 2, 239, 3, 170, 2, 234, 0, 98, 3, 155, 2, 206, 2, 78, 2,
  42, 0, 202, 3, 12, 2, 187, 1, 16, 2, 146, 2, 146, 1, 126, 3, 179, 1, 210, 3,
  18, 2, 50, 0, 142, 3, 126, 3, 187, 3, 178, 1, 168, 0, 30, 0, 7, 1, 14, 3,
  178, 1, 40, 2, 146, 1, 126, 2, 62, 0, 16, 3, 62, 3, 254, 2, 86, 1, 18, 0,
  75, 1, 168, 2, 153, 1, 142, 2, 20, 1, 11, 2, 238, 3, 70, 0, 3, 2, 206, 1,
  126, 0, 3, 1, 254, 1, 46, 2, 89, 3, 98, 0, 71, 3, 50, 3, 158, 0, 7, 1, 204,
  1, 181, 2, 12, 2, 117, 2, 76, 2, 113, 3, 249, 2, 140, 2, 113, 1, 245, 2,
  204, 2, 113, 3, 125, 2, 113, 2, 229, 2, 113, 3, 217, 3, 174, 1, 78, 0, 26,
  0, 191, 1, 78, 3, 46, 0, 28, 1, 14, 0, 108, 0, 195, 3, 174, 1, 190, 0, 227,
  0, 230, 1, 234, 2, 204, 3, 21, 2, 84, 0, 27, 1, 84, 2, 83, 3, 217, 2, 157,
  2, 83, 3, 217, 3, 177, 2, 229, 2, 204, 2, 109, 3, 125, 2, 140, 2, 109, 1,
  245, 2, 76, 2, 109, 3, 249, 2, 12, 2, 109, 2, 109, 2, 109, 1, 140, 2, 242,
  3, 76, 2, 46, 3, 174, 1, 152, 2, 59, 0, 148, 1, 123, 3, 234, 2, 122, 3, 11,
  3, 22, 1, 103, 3, 150, 1, 14, 1, 106, 1, 115, 2, 206, 0, 210, 3, 170, 1,
  190, 1, 179, 3, 46, 3, 14, 0, 238, 2, 206, 2, 46, 0, 206, 1, 102, 0, 148, 1,
  219, 1, 24, 1, 230, 1, 231, 1, 152, 0, 108, 1, 215, 2, 78, 2, 78, 0, 148, 2,
  83, 0, 48, 1, 204, 0, 216, 0, 216, 0, 24, 2, 24, 1, 88, 0, 24, 2, 88, 3,
  171, 2, 89, 3, 226, 1, 46, 1, 126, 2, 27, 2, 210, 3, 174, 1, 22, 3, 174, 3,
  126, 2, 35, 3, 46, 3, 226, 3, 49, 0, 144, 2, 210, 3, 126, 2, 87, 2, 254, 3,
  142, 0, 48, 0, 144, 2, 206, 2, 46, 2, 131, 3, 142, 1, 126, 2, 127, 3, 174,
  1, 22, 3, 174, 1, 183, 0, 204, 1, 202, 1, 94, 2, 175, 0, 190, 3, 38, 2, 238,
  3, 44, 3, 23, 0, 102, 2, 219, 0, 84, 0, 3, 0, 146, 3, 102, 1, 250, 2, 50, 3,
  166, 0, 144, 2, 36, 1, 152, 2, 88, 0, 216, 0, 88, 1, 24, 1, 216, 0, 88, 3,
  155, 3, 230, 1, 147, 3, 142, 1, 98, 3, 19, 2, 206, 0, 60, 3, 108, 3, 23, 1,
  234, 2, 254, 3, 12, 0, 46, 2, 98, 3, 91, 1, 14, 1, 106, 2, 110, 3, 63, 0,
  206, 1, 42, 3, 142, 2, 126, 3, 31, 3, 166, 1, 142, 0, 46, 3, 12, 1, 235, 2,
  76, 0, 216, 0, 88, 0, 24, 0, 88, 1, 216, 2, 88, 2, 24, 0, 24, 1, 88, 1, 88,
  0, 216, 3, 119, 3, 174, 1, 46, 1, 134, 2, 186, 1, 123, 1, 250, 2, 206, 1,
  234, 3, 203, 1, 159, 0, 206, 3, 12, 0, 152, 0, 216, 0, 24, 0, 152, 1, 88, 2,
  7, 1, 76, 1, 251
]

/-- Script tape of virtual key codes for the intrinsic functions (source array `mem`) -/
def mem : List Nat := [
  62, 30, 12, 62, 62, 11, 30, 22, 46, 62, 11, 38, 44, 43, 11, 11, 11, 255, 12,
  43, 62, 62, 30, 59, 62, 28, 22, 46, 11, 30, 11, 30, 12, 11, 255, 12, 62, 62,
  28, 22, 11, 11, 11, 12, 6, 14, 59, 62, 28, 22, 12, 38, 255, 62, 62, 62, 30,
  30, 35, 36, 52, 30, 59, 12, 28, 35, 18, 30, 54, 2, 28, 22, 14, 12, 62, 30,
  59, 27, 38, 2, 34, 27, 30, 46, 14, 30, 255, 62, 28, 22, 62, 62, 62, 28, 27,
  30, 12, 28, 36, 30, 14, 54, 14, 22, 3, 28, 54, 30, 12, 3, 59, 34, 27, 30, 3,
  22, 27, 38, 22, 255, 12, 27, 38, 59, 62, 62, 30, 11, 11, 11, 54, 46, 62, 62,
  56, 22, 59, 11, 22, 11, 22, 11, 11, 11, 255, 2, 62, 14, 59, 22, 27, 38, 255,
  2, 62, 14, 22, 27, 38, 255, 62, 27, 30, 2, 62, 62, 28, 54, 12, 28, 22, 38,
  255, 62, 62, 30, 28, 22, 46, 22, 3, 255, 62, 62, 30, 28, 54, 46, 22, 3, 255,
  62, 62, 28, 22, 12, 59, 62, 28, 22, 38, 46, 3, 255
]

/-- Key-to-key-code dispatch table (source array `k2c`) -/
def k2c : List Nat := [
  255, 28, 52, 27, 51, 26, 50, 56, 58, 36, 20, 35, 19, 62, 18, 59, 255, 2, 14,
  3, 46, 54, 38, 0, 12, 10, 6, 8, 4, 22, 30, 11, 255, 40, 43, 70, 66, 71, 67,
  65, 255, 44, 42, 64, 68, 34, 69, 255, 255, 74, 72, 77, 75, 255, 255, 255,
  255, 255, 73, 255, 76, 255, 255, 255
]

/-- Key-code to tape-offset table (source array `c2m`) -/
def c2m : List Nat := [
  0, 18, 35, 53, 87, 120, 145, 153, 160, 173, 182, 191
]

/-- Seven-segment bitmaps for digits 0..9 (source array `digit`) -/
def digit : List Nat := [
  63, 6, 91, 79, 102, 109, 125, 7, 127, 111
]

/-- Message banners: Error, run, HYP? (source array `msg`) -/
def msg : List Nat := [
  0, 121, 80, 80, 92, 80, 0, 0, 0, 80, 28, 84, 0, 0, 0, 0, 0, 118, 110, 115,
  128, 83, 0, 0
]

/-- High fetch byte of the coming microcycle
(source `pgm_read_byte_near(rom + offset * 256 * 2 + pc * 2)`). -/
def fetchH (st : Cpu) : Nat := rd rom (st.offset * (256 * 2) + st.pc * 2)

/-- Low fetch byte of the coming microcycle. -/
def fetchL (st : Cpu) : Nat := rd rom (st.offset * (256 * 2) + st.pc * 2 + 1)

/-- One pass of the digit loop of `printscreen` (indices `i = 13` down to
`6`), writing display cells at `pos, pos+1, ...`; each iteration writes
exactly one cell, blank when `b[i] >= 8`, minus/blank at the sign position
`13`, a digit bitmap otherwise, with the decimal point OR-ed in when
`b[i] == 2`. -/
def stackIter (a b : List Nat) (i n pos : Nat) (dbuf : List Nat) : List Nat :=
  match n with
  | 0 => dbuf
  | k + 1 =>
    let cell :=
      if rd b i ≥ 8 then 0
      else if i = 13 then (if rd a i ≥ 8 then 0x40 else 0)
      else rd digit (rd a i)
    let cell := if rd b i = 2 then cell ||| 0x80 else cell
    stackIter a b (i - 1) k (pos + 1) (dbuf.set pos cell)

/-- The stack branch of `printscreen`: project registers A and B into the
8-cell display buffer (digit loop, then the exponent field when
`(b[0] | b[1] | b[2]) < 8`). -/
def renderStack (a b : List Nat) : List Nat :=
  let dbuf := stackIter a b 13 8 0 (List.replicate 8 0)
  if (rd b 0 ||| rd b 1 ||| rd b 2) < 8 then
    let dbuf := dbuf.set 5 (if rd a 2 < 8 then 0 else 0x40)
    let dbuf := dbuf.set 6 (rd digit (rd a 1))
    dbuf.set 7 (rd digit (rd a 0))
  else dbuf

/-- The display buffer written by `printscreen`: a message banner when
`msgnr` is set, a dark screen for the screensaver, otherwise the
projection of A and B. -/
def renderScreen (msgnr : Nat) (darkscreen : Bool) (a b : List Nat) : List Nat :=
  if msgnr ≠ 0 then (List.range 8).map (fun i => rd msg (8 * (msgnr - 1) + i))
  else if darkscreen then List.replicate 8 0
  else renderStack a b

/-- The display tail of `process_rom`: raise the pending-update flag while
the display is enabled; on the falling edge run `printscreen` (which
clears `display_update`) and release the script interlock. -/
def displayTail (sys : Sys) : Sys :=
  if sys.cpu.display_enable then
    {sys with cpu := {sys.cpu with display_update := true}}
  else if sys.cpu.display_update then
    {sys with
      cpu := {sys.cpu with display_update := false, islock := false, count := 0},
      dbuf := renderScreen sys.msgnr sys.darkscreen sys.cpu.a sys.cpu.b}
  else sys

/-- One microcycle on a given fetched byte pair `(h, l)`: carry rollover,
PC increment, key latch, the instruction stages in source order, then the
display tail. -/
def microStep (h l : Nat) (sys : Sys) : Sys :=
  let c0 := {sys.cpu with prevCarry := sys.cpu.carry, carry := 0,
                          pc := (sys.cpu.pc + 1) % 256}
  displayTail {sys with cpu := instrStep h l c0}

/-- The PC-191 error trap at the head of `process_rom`
(source `if ((pc == 191) & (offset == 0)) msgnr = MSGERROR;`). -/
def trapCheck (sys : Sys) : Sys :=
  if sys.cpu.pc = 191 ∧ sys.cpu.offset = 0 then {sys with msgnr := 1} else sys

/-- One full call of `process_rom`: error trap, ROM fetch, one microcycle. -/
def process_rom (sys : Sys) : Sys :=
  let sys := trapCheck sys
  microStep (fetchH sys.cpu) (fetchL sys.cpu) sys

/-- The key-dispatch block at the head of `loop()`
(source `if (key && key < _END) { ... }`). -/
def keyExec (sys : Sys) : Sys :=
  if sys.key ≠ 0 ∧ sys.key < 255 then
    let sys := {sys with cpu := {sys.cpu with display_update := true},
                         msgnr := 0, darkscreen := false, isrun := false}
    if sys.key = 1 then
      let fg1 := (sys.fg + 1) % 256
      if fg1 > 2 then {sys with darkscreen := true, fg := 0}
      else {sys with fg := fg1}
    else
      let pos := sys.fg * 16 + sys.key - 1
      let sys := {sys with cpu := {sys.cpu with key_code := rd k2c pos}, fg := 0}
      if sys.cpu.key_code = 64 then {sys with fg := 3, msgnr := 3}
      else if sys.cpu.key_code = 65 then
        {sys with brightness := (sys.brightness + 1) % 256,
                  cpu := {sys.cpu with key_code := 255}}
      else if sys.cpu.key_code > 65 then
        {sys with memp := rd c2m (sys.cpu.key_code - 65 - 1), isrun := true,
                  msgnr := 2}
      else sys
  else sys

/-- The script-sequencer feed after `process_rom` in `loop()`
(source `if (isrun && !islock && count++ > 5) { ... }`). -/
def seqFeed (sys : Sys) : Sys :=
  if sys.isrun ∧ sys.cpu.islock = false then
    let cnt := sys.cpu.count
    let sys := {sys with cpu := {sys.cpu with count := cnt + 1}}
    if cnt > 5 then
      let cmd := rd mem sys.memp
      let sys := {sys with memp := sys.memp + 1}
      let sys :=
        if cmd = 255 then
          {sys with isrun := false, msgnr := 0,
                    cpu := {sys.cpu with display_update := true}}
        else {sys with cpu := {sys.cpu with key_code := cmd}}
      {sys with cpu := {sys.cpu with islock := true}}
    else sys
  else sys

/-- The debounced key sample at the end of `loop()`
(source `key = getkey(); if (key == oldkey) key = _END; else oldkey = key;`),
with the raw hardware scan code passed in as `raw`. -/
def getKeyStep (raw : Nat) (sys : Sys) : Sys :=
  if raw = sys.oldkey then {sys with key := 255}
  else {sys with key := raw, oldkey := raw}

/-- One iteration of `loop()` given the raw key scanned at its end. -/
def loopStep (raw : Nat) (sys : Sys) : Sys :=
  getKeyStep raw (seqFeed (process_rom (keyExec sys)))

/-- Iterated `loop()` over a list of raw key samples. -/
def runLoop (inputs : List Nat) (sys : Sys) : Sys :=
  inputs.foldl (fun s k => loopStep k s) sys

/-- The low fetch bytes of the microcycles executed by `runLoop`, one per
iteration (the fetch address is unchanged by the key-dispatch block). -/
def fetchLTrace : List Nat → Sys → List Nat
  | [], _ => []
  | k :: ks, sys => fetchL sys.cpu :: fetchLTrace ks (loopStep k sys)

/-- The power-on state: all registers zero, `key = oldkey = _KX = 8`,
`fg = 2`, `brightness = 2`, `key_code = _END`, display enabled. -/
def initSys : Sys :=
  { cpu := { a := List.replicate 16 0, b := List.replicate 16 0,
             c := List.replicate 16 0, d := List.replicate 16 0,
             e := List.replicate 16 0, f := List.replicate 16 0,
             m := List.replicate 16 0, t := List.replicate 16 0,
             s := List.replicate 12 0,
             p := 0, pc := 0, ret := 0, offset := 0, carry := 0, prevCarry := 0,
             key_code := 255, key_rom := 0,
             display_enable := true, display_update := true,
             islock := false, count := 0 },
    msgnr := 0, dbuf := List.replicate 8 0, darkscreen := false,
    isrun := false, memp := 0, key := 8, oldkey := 8, fg := 2, brightness := 2 }

/-- The 23 decoder guards of one microcycle, in source order: subroutine
call, return, ROM select, jump-on-key, the nine `l & 0x3f` sub-ops, the
eight `(h & 3, l & 0xef)` special moves, conditional branch, and the
arithmetic family. -/
def guards (h l : Nat) : List Bool :=
  [decide (l &&& 0x03 = 0x01),
   decide (l &&& 0x7f = 0x30),
   decide (l &&& 0x7f = 0x10),
   decide (l = 0xd0),
   decide (l &&& 0x3f = 0x14), decide (l &&& 0x3f = 0x04),
   decide (l &&& 0x3f = 0x24), decide (l &&& 0x3f = 0x34),
   decide (l &&& 0x3f = 0x2c), decide (l &&& 0x3f = 0x0c),
   decide (l &&& 0x3f = 0x3c), decide (l &&& 0x3f = 0x1c),
   decide (l &&& 0x3f = 0x18),
   decide (h &&& 0x03 = 0 ∧ l &&& 0xef = 0xa8),
   decide (h &&& 0x03 = 1 ∧ l &&& 0xef = 0x28),
   decide (h &&& 0x03 = 1 ∧ l &&& 0xef = 0xa8),
   decide (h &&& 0x03 = 2 ∧ l &&& 0xef = 0xa8),
   decide (h &&& 0x03 = 3 ∧ l &&& 0xef = 0x28),
   decide (h &&& 0x03 = 3 ∧ l &&& 0xef = 0xa8),
   decide (h &&& 0x03 = 0 ∧ l &&& 0xef = 0x28),
   decide (h &&& 0x03 = 2 ∧ l &&& 0xef = 0x28),
   decide (l &&& 0x03 = 0x03),
   decide (l &&& 0x03 = 0x02)]

/-- The bookkeeping-only microcycle: carry rollover, PC increment, key
latch and display tail, with no instruction-family effect. -/
def noopCycle (sys : Sys) : Sys :=
  let c0 := {sys.cpu with prevCarry := sys.cpu.carry, carry := 0,
                          pc := (sys.cpu.pc + 1) % 256}
  displayTail {sys with cpu := keyLatch c0}

/-- Little-endian base-10 value of the `n` digits of `r` starting at
index `first`. -/
def sliceVal (r : List Nat) (first n : Nat) : Nat :=
  match n with
  | 0 => 0
  | k + 1 => rd r first + 10 * sliceVal r (first + 1) k

/-- `runLoop` instrumented with the fetched low byte of each iteration,
computed in one pass (final state, fetched low bytes). -/
def runObs : List Nat → Sys → Sys × List Nat
  | [], sys => (sys, [])
  | k :: ks, sys =>
    let r := runObs ks (loopStep k sys)
    (r.1, fetchL sys.cpu :: r.2)

/-- The register file has its declared extent: eight 16-entry arrays and
the 12-entry status array. -/
def LenInv (st : Cpu) : Prop :=
  st.a.length = 16 ∧ st.b.length = 16 ∧ st.c.length = 16 ∧ st.d.length = 16 ∧
  st.e.length = 16 ∧ st.f.length = 16 ∧ st.m.length = 16 ∧ st.t.length = 16 ∧
  st.s.length = 12

/-! ## Basic read/write lemmas -/

theorem rd_set_ne {r : List Nat} {i j v : Nat} (hij : j ≠ i) :
    rd (r.set i v) j = rd r j := by
  unfold rd
  rw [List.getD_eq_getElem?_getD, List.getD_eq_getElem?_getD,
    List.getElem?_set_ne (by omega)]

theorem rd_set_self {r : List Nat} {i v : Nat} (hi : i < r.length) :
    rd (r.set i v) i = v := by
  unfold rd
  rw [List.getD_eq_getElem?_getD, List.getElem?_set_eq_of_lt _ hi]
  rfl

theorem rd_lt_of_all {r : List Nat} {B : Nat} (hB : 0 < B)
    (hall : ∀ x ∈ r, x < B) (i : Nat) : rd r i < B := by
  unfold rd
  rw [List.getD_eq_getElem?_getD]
  cases h : r[i]? with
  | none => simpa using hB
  | some v => exact hall v (List.getElem?_mem h)

/-! ## Generic loop lemmas -/

theorem arLoop_obs {α : Type} (g : Cpu → α) (body : Nat → Cpu → Cpu)
    (hb : ∀ i s, g (body i s) = g s) :
    ∀ (n first : Nat) (s : Cpu), g (arLoop body first n s) = g s := by
  intro n
  induction n with
  | zero => intro first s; rfl
  | succ k ih =>
    intro first s
    show g (arLoop body (first + 1) k (body first s)) = g s
    rw [ih, hb]

theorem arLoopDown_obs {α : Type} (g : Cpu → α) (body : Nat → Cpu → Cpu)
    (hb : ∀ i s, g (body i s) = g s) :
    ∀ (n i : Nat) (s : Cpu), g (arLoopDown body i n s) = g s := by
  intro n
  induction n with
  | zero => intro i s; rfl
  | succ k ih =>
    intro i s
    show g (arLoopDown body (i - 1) k (body i s)) = g s
    rw [ih, hb]

theorem arLoop_reg_frame (body : Nat → Cpu → Cpu) (R : RegName)
    (hb : ∀ i s j, j ≠ i → rd ((body i s).reg R) j = rd (s.reg R) j) :
    ∀ (n first : Nat) (s : Cpu) (j : Nat), j < first ∨ first + n ≤ j →
      rd ((arLoop body first n s).reg R) j = rd (s.reg R) j := by
  intro n
  induction n with
  | zero => intro first s j _; rfl
  | succ k ih =>
    intro first s j hj
    show rd ((arLoop body (first + 1) k (body first s)).reg R) j = _
    rw [ih (first + 1) (body first s) j (by omega), hb first s j (by omega)]

theorem arLoopDown_reg_frame (body : Nat → Cpu → Cpu) (R : RegName)
    (hb : ∀ i s j, j ≠ i → rd ((body i s).reg R) j = rd (s.reg R) j) :
    ∀ (n i : Nat) (s : Cpu) (j : Nat), i < j ∨ j + n ≤ i →
      rd ((arLoopDown body i n s).reg R) j = rd (s.reg R) j := by
  intro n
  induction n with
  | zero => intro i s j _; rfl
  | succ k ih =>
    intro i s j hj
    show rd ((arLoopDown body (i - 1) k (body i s)).reg R) j = _
    rw [ih (i - 1) (body i s) j (by omega), hb i s j (by omega)]

/-! ## Byte-level decoder facts -/

theorem bitsel_lt (h l : Nat) : bitsel h l < 16 := by
  unfold bitsel
  have h4 : (16 : Nat) = 2 ^ 4 := by norm_num
  have h1 : (h &&& 0x03) <<< 2 < 16 := by
    have := Nat.and_le_right (n := h) (m := 0x03)
    rw [Nat.shiftLeft_eq]; omega
  have h2 : (l &&& 0xc0) >>> 6 < 16 := by
    have := Nat.and_le_right (n := l) (m := 0xc0)
    rw [Nat.shiftRight_eq_div_pow]; omega
  rw [h4] at h1 h2 ⊢
  exact Nat.or_lt_two_pow h1 h2

theorem decP_lt (p : Nat) : decP p < 16 := by
  unfold decP
  have := Nat.and_le_right (n := p + 15) (m := 0x0f)
  omega

theorem incP_lt (p : Nat) : (p + 1) &&& 0x0f < 16 := by
  have := Nat.and_le_right (n := p + 1) (m := 0x0f)
  omega

set_option maxRecDepth 8000 in
/-- An arithmetic-family low byte matches no other decoder guard. -/
theorem arith_excl : ∀ l < 256, ¬(l &&& 0x03 = 0x02) ∨
    (l &&& 0x03 ≠ 0x01 ∧ l &&& 0x7f ≠ 0x30 ∧ l &&& 0x7f ≠ 0x10 ∧ l ≠ 0xd0 ∧
     l &&& 0x3f ≠ 0x14 ∧ l &&& 0x3f ≠ 0x04 ∧ l &&& 0x3f ≠ 0x24 ∧
     l &&& 0x3f ≠ 0x34 ∧ l &&& 0x3f ≠ 0x2c ∧ l &&& 0x3f ≠ 0x0c ∧
     l &&& 0x3f ≠ 0x3c ∧ l &&& 0x3f ≠ 0x1c ∧ l &&& 0x3f ≠ 0x18 ∧
     l &&& 0xef ≠ 0x28 ∧ l &&& 0xef ≠ 0xa8 ∧ l &&& 0x03 ≠ 0x03) := by decide

set_option maxRecDepth 8000 in
/-- A special-move low byte (`l & 0xef ∈ {0x28, 0xa8}`) matches no guard
outside the special-move block. -/
theorem special_excl : ∀ l < 256, ¬(l &&& 0xef = 0x28 ∨ l &&& 0xef = 0xa8) ∨
    (l &&& 0x03 ≠ 0x01 ∧ l &&& 0x7f ≠ 0x30 ∧ l &&& 0x7f ≠ 0x10 ∧ l ≠ 0xd0 ∧
     l &&& 0x3f ≠ 0x14 ∧ l &&& 0x3f ≠ 0x04 ∧ l &&& 0x3f ≠ 0x24 ∧
     l &&& 0x3f ≠ 0x34 ∧ l &&& 0x3f ≠ 0x2c ∧ l &&& 0x3f ≠ 0x0c ∧
     l &&& 0x3f ≠ 0x3c ∧ l &&& 0x3f ≠ 0x1c ∧ l &&& 0x3f ≠ 0x18 ∧
     l &&& 0x03 ≠ 0x03 ∧ l &&& 0x03 ≠ 0x02) := by decide

/-- For an arithmetic-family instruction the microcycle reduces to the
key latch followed by the arithmetic dispatch. -/
theorem instrStep_arith_eq (h l : Nat) (hl : l < 256)
    (hfam : l &&& 0x03 = 0x02) (st : Cpu) :
    instrStep h l st = arithStep h l (keyLatch st) := by
  obtain ⟨g1, g2, g3, g4, g5, g6, g7, g8, g9, g10, g11, g12, g13, g14, g15,
    g16⟩ := (arith_excl l hl).resolve_left (not_not_intro hfam)
  unfold instrStep jsbStep retStep romStep jumpKeyStep miscStep specialStep
    branchStep
  simp [g1, g2, g3, g4, g5, g6, g7, g8, g9, g10, g11, g12, g13, g14, g15, g16]

/-- For a special-move instruction the microcycle reduces to the key
latch followed by the special-move block. -/
theorem instrStep_special_eq (h l : Nat) (hl : l < 256)
    (hlef : l &&& 0xef = 0x28 ∨ l &&& 0xef = 0xa8) (st : Cpu) :
    instrStep h l st = specialStep h l (keyLatch st) := by
  obtain ⟨g1, g2, g3, g4, g5, g6, g7, g8, g9, g10, g11, g12, g13, g14,
    g15⟩ := (special_excl l hl).resolve_left (not_not_intro hlef)
  unfold instrStep jsbStep retStep romStep jumpKeyStep miscStep branchStep
    arithStep
  simp [g1, g2, g3, g4, g5, g6, g7, g8, g9, g10, g11, g12, g13, g14, g15]

/-! ## Frame property of the arithmetic family -/

theorem rd_reg_carry (st : Cpu) (x : Nat) (R : RegName) (j : Nat) :
    rd (({st with carry := x}).reg R) j = rd (st.reg R) j := by
  cases R <;> rfl

set_option maxHeartbeats 1600000 in
theorem arithSwitch_frame (op first last : Nat) (hfl : first ≤ last)
    (st : Cpu) (R : RegName) (j : Nat) (hj : j < first ∨ last < j) :
    rd ((arithSwitch op first last st).reg R) j = rd (st.reg R) j := by
  rcases Nat.lt_or_ge op 32 with hop | hop
  · interval_cases op
    · simp only [arithSwitch, reduceIte]
      exact (arLoop_reg_frame (fun i s => if rd s.b i ≠ 0 then {s with carry := 1} else s) R
        (fun i s j' hij => by cases R <;> (simp only [Cpu.reg]; split <;> rfl))
        (last + 1 - first) first {st with carry := 0} j (by omega)).trans
        (rd_reg_carry st 0 R j)
    · simp only [arithSwitch, reduceIte]
      exact (arLoop_reg_frame (fun i s => {s with b := s.b.set i 0}) R
        (fun i s j' hij => by cases R <;> simp [Cpu.reg, rd_set_ne hij])
        (last + 1 - first) first {st with carry := 0} j (by omega)).trans
        (rd_reg_carry st 0 R j)
    · simp only [arithSwitch, reduceIte]
      exact (arLoop_reg_frame (fun i s =>
          let r := do_sub s.carry (rd s.a i) (rd s.c i)
          {s with t := s.t.set i r.1, carry := r.2}) R
        (fun i s j' hij => by cases R <;> simp [Cpu.reg, rd_set_ne hij])
        (last + 1 - first) first {st with carry := 0} j (by omega)).trans
        (rd_reg_carry st 0 R j)
    · simp only [arithSwitch, reduceIte]
      exact (arLoop_reg_frame (fun i s => if rd s.c i ≠ 0 then {s with carry := 0} else s) R
        (fun i s j' hij => by cases R <;> (simp only [Cpu.reg]; split <;> rfl))
        (last + 1 - first) first {{st with carry := 0} with carry := 1} j (by omega)).trans
        ((rd_reg_carry {st with carry := 0} 1 R j).trans (rd_reg_carry st 0 R j))
    · simp only [arithSwitch, reduceIte]
      exact (arLoop_reg_frame (fun i s => {s with c := s.c.set i (rd s.b i)}) R
        (fun i s j' hij => by cases R <;> simp [Cpu.reg, rd_set_ne hij])
        (last + 1 - first) first {st with carry := 0} j (by omega)).trans
        (rd_reg_carry st 0 R j)
    · simp only [arithSwitch, reduceIte]
      exact (arLoop_reg_frame (fun i s =>
          let r := do_sub s.carry (0) (rd s.c i)
          {s with c := s.c.set i r.1, carry := r.2}) R
        (fun i s j' hij => by cases R <;> simp [Cpu.reg, rd_set_ne hij])
        (last + 1 - first) first {st with carry := 0} j (by omega)).trans
        (rd_reg_carry st 0 R j)
    · simp only [arithSwitch, reduceIte]
      exact (arLoop_reg_frame (fun i s => {s with c := s.c.set i 0}) R
        (fun i s j' hij => by cases R <;> simp [Cpu.reg, rd_set_ne hij])
        (last + 1 - first) first {st with carry := 0} j (by omega)).trans
        (rd_reg_carry st 0 R j)
    · simp only [arithSwitch, reduceIte]
      exact (arLoop_reg_frame (fun i s =>
          let r := do_sub s.carry (0) (rd s.c i)
          {s with c := s.c.set i r.1, carry := r.2}) R
        (fun i s j' hij => by cases R <;> simp [Cpu.reg, rd_set_ne hij])
        (last + 1 - first) first {{st with carry := 0} with carry := 1} j (by omega)).trans
        ((rd_reg_carry {st with carry := 0} 1 R j).trans (rd_reg_carry st 0 R j))
    · simp only [arithSwitch, reduceIte]
      have h1 : rd ((arLoopDown (fun i s => {s with a := s.a.set i (rd s.a (i - 1))})
          last (last - first) {st with carry := 0}).reg R) j = rd (st.reg R) j :=
        (arLoopDown_reg_frame (fun i s => {s with a := s.a.set i (rd s.a (i - 1))}) R
          (fun i s j' hij => by cases R <;> simp [Cpu.reg, rd_set_ne hij])
          (last - first) last {st with carry := 0} j (by omega)).trans
          (rd_reg_carry st 0 R j)
      cases R <;> simp_all [Cpu.reg, rd_set_ne (show j ≠ first by omega)]
    · simp only [arithSwitch, reduceIte]
      exact (arLoop_reg_frame (fun i s => {s with b := s.b.set i (rd s.a i)}) R
        (fun i s j' hij => by cases R <;> simp [Cpu.reg, rd_set_ne hij])
        (last + 1 - first) first {st with carry := 0} j (by omega)).trans
        (rd_reg_carry st 0 R j)
    · simp only [arithSwitch, reduceIte]
      exact (arLoop_reg_frame (fun i s =>
          let r := do_sub s.carry (rd s.a i) (rd s.c i)
          {s with c := s.c.set i r.1, carry := r.2}) R
        (fun i s j' hij => by cases R <;> simp [Cpu.reg, rd_set_ne hij])
        (last + 1 - first) first {st with carry := 0} j (by omega)).trans
        (rd_reg_carry st 0 R j)
    · simp only [arithSwitch, reduceIte]
      exact (arLoop_reg_frame (fun i s =>
          let r := do_sub s.carry (rd s.c i) (0)
          {s with c := s.c.set i r.1, carry := r.2}) R
        (fun i s j' hij => by cases R <;> simp [Cpu.reg, rd_set_ne hij])
        (last + 1 - first) first {{st with carry := 0} with carry := 1} j (by omega)).trans
        ((rd_reg_carry {st with carry := 0} 1 R j).trans (rd_reg_carry st 0 R j))
    · simp only [arithSwitch, reduceIte]
      exact (arLoop_reg_frame (fun i s => {s with a := s.a.set i (rd s.c i)}) R
        (fun i s j' hij => by cases R <;> simp [Cpu.reg, rd_set_ne hij])
        (last + 1 - first) first {st with carry := 0} j (by omega)).trans
        (rd_reg_carry st 0 R j)
    · simp only [arithSwitch, reduceIte]
      exact (arLoop_reg_frame (fun i s => if rd s.c i ≠ 0 then {s with carry := 1} else s) R
        (fun i s j' hij => by cases R <;> (simp only [Cpu.reg]; split <;> rfl))
        (last + 1 - first) first {st with carry := 0} j (by omega)).trans
        (rd_reg_carry st 0 R j)
    · simp only [arithSwitch, reduceIte]
      exact (arLoop_reg_frame (addBodyAC) R
        (fun i s j' hij => by cases R <;> simp [addBodyAC, Cpu.reg, rd_set_ne hij])
        (last + 1 - first) first {st with carry := 0} j (by omega)).trans
        (rd_reg_carry st 0 R j)
    · simp only [arithSwitch, reduceIte]
      exact (arLoop_reg_frame (fun i s =>
          let r := do_add s.carry (rd s.c i) (0)
          {s with c := s.c.set i r.1, carry := r.2}) R
        (fun i s j' hij => by cases R <;> simp [Cpu.reg, rd_set_ne hij])
        (last + 1 - first) first {{st with carry := 0} with carry := 1} j (by omega)).trans
        ((rd_reg_carry {st with carry := 0} 1 R j).trans (rd_reg_carry st 0 R j))
    · simp only [arithSwitch, reduceIte]
      exact (arLoop_reg_frame (fun i s =>
          let r := do_sub s.carry (rd s.a i) (rd s.b i)
          {s with t := s.t.set i r.1, carry := r.2}) R
        (fun i s j' hij => by cases R <;> simp [Cpu.reg, rd_set_ne hij])
        (last + 1 - first) first {st with carry := 0} j (by omega)).trans
        (rd_reg_carry st 0 R j)
    · simp only [arithSwitch, reduceIte]
      exact (arLoop_reg_frame (fun i s => {s with b := s.b.set i (rd s.c i), c := s.c.set i (rd s.b i)}) R
        (fun i s j' hij => by cases R <;> simp [Cpu.reg, rd_set_ne hij])
        (last + 1 - first) first {st with carry := 0} j (by omega)).trans
        (rd_reg_carry st 0 R j)
    · simp only [arithSwitch, reduceIte]
      have h1 : rd ((arLoop (fun i s => {s with c := s.c.set i (rd s.c (i + 1))})
          first (last - first) {st with carry := 0}).reg R) j = rd (st.reg R) j :=
        (arLoop_reg_frame (fun i s => {s with c := s.c.set i (rd s.c (i + 1))}) R
          (fun i s j' hij => by cases R <;> simp [Cpu.reg, rd_set_ne hij])
          (last - first) first {st with carry := 0} j (by omega)).trans
          (rd_reg_carry st 0 R j)
      cases R <;> simp_all [Cpu.reg, rd_set_ne (show j ≠ last by omega)]
    · simp only [arithSwitch, reduceIte]
      exact (arLoop_reg_frame (fun i s => if rd s.a i ≠ 0 then {s with carry := 0} else s) R
        (fun i s j' hij => by cases R <;> (simp only [Cpu.reg]; split <;> rfl))
        (last + 1 - first) first {{st with carry := 0} with carry := 1} j (by omega)).trans
        ((rd_reg_carry {st with carry := 0} 1 R j).trans (rd_reg_carry st 0 R j))
    · simp only [arithSwitch, reduceIte]
      have h1 : rd ((arLoop (fun i s => {s with b := s.b.set i (rd s.b (i + 1))})
          first (last - first) {st with carry := 0}).reg R) j = rd (st.reg R) j :=
        (arLoop_reg_frame (fun i s => {s with b := s.b.set i (rd s.b (i + 1))}) R
          (fun i s j' hij => by cases R <;> simp [Cpu.reg, rd_set_ne hij])
          (last - first) first {st with carry := 0} j (by omega)).trans
          (rd_reg_carry st 0 R j)
      cases R <;> simp_all [Cpu.reg, rd_set_ne (show j ≠ last by omega)]
    · simp only [arithSwitch, reduceIte]
      exact (arLoop_reg_frame (addBodyCC) R
        (fun i s j' hij => by cases R <;> simp [addBodyCC, Cpu.reg, rd_set_ne hij])
        (last + 1 - first) first {st with carry := 0} j (by omega)).trans
        (rd_reg_carry st 0 R j)
    · simp only [arithSwitch, reduceIte]
      have h1 : rd ((arLoop (fun i s => {s with a := s.a.set i (rd s.a (i + 1))})
          first (last - first) {st with carry := 0}).reg R) j = rd (st.reg R) j :=
        (arLoop_reg_frame (fun i s => {s with a := s.a.set i (rd s.a (i + 1))}) R
          (fun i s j' hij => by cases R <;> simp [Cpu.reg, rd_set_ne hij])
          (last - first) first {st with carry := 0} j (by omega)).trans
          (rd_reg_carry st 0 R j)
      cases R <;> simp_all [Cpu.reg, rd_set_ne (show j ≠ last by omega)]
    · simp only [arithSwitch, reduceIte]
      exact (arLoop_reg_frame (fun i s => {s with a := s.a.set i 0}) R
        (fun i s j' hij => by cases R <;> simp [Cpu.reg, rd_set_ne hij])
        (last + 1 - first) first {st with carry := 0} j (by omega)).trans
        (rd_reg_carry st 0 R j)
    · simp only [arithSwitch, reduceIte]
      exact (arLoop_reg_frame (fun i s =>
          let r := do_sub s.carry (rd s.a i) (rd s.b i)
          {s with a := s.a.set i r.1, carry := r.2}) R
        (fun i s j' hij => by cases R <;> simp [Cpu.reg, rd_set_ne hij])
        (last + 1 - first) first {st with carry := 0} j (by omega)).trans
        (rd_reg_carry st 0 R j)
    · simp only [arithSwitch, reduceIte]
      exact (arLoop_reg_frame (fun i s => {s with a := s.a.set i (rd s.b i), b := s.b.set i (rd s.a i)}) R
        (fun i s j' hij => by cases R <;> simp [Cpu.reg, rd_set_ne hij])
        (last + 1 - first) first {st with carry := 0} j (by omega)).trans
        (rd_reg_carry st 0 R j)
    · simp only [arithSwitch, reduceIte]
      exact (arLoop_reg_frame (fun i s =>
          let r := do_sub s.carry (rd s.a i) (rd s.c i)
          {s with a := s.a.set i r.1, carry := r.2}) R
        (fun i s j' hij => by cases R <;> simp [Cpu.reg, rd_set_ne hij])
        (last + 1 - first) first {st with carry := 0} j (by omega)).trans
        (rd_reg_carry st 0 R j)
    · simp only [arithSwitch, reduceIte]
      exact (arLoop_reg_frame (fun i s =>
          let r := do_sub s.carry (rd s.a i) (0)
          {s with a := s.a.set i r.1, carry := r.2}) R
        (fun i s j' hij => by cases R <;> simp [Cpu.reg, rd_set_ne hij])
        (last + 1 - first) first {{st with carry := 0} with carry := 1} j (by omega)).trans
        ((rd_reg_carry {st with carry := 0} 1 R j).trans (rd_reg_carry st 0 R j))
    · simp only [arithSwitch, reduceIte]
      exact (arLoop_reg_frame (addBodyAB) R
        (fun i s j' hij => by cases R <;> simp [addBodyAB, Cpu.reg, rd_set_ne hij])
        (last + 1 - first) first {st with carry := 0} j (by omega)).trans
        (rd_reg_carry st 0 R j)
    · simp only [arithSwitch, reduceIte]
      exact (arLoop_reg_frame (fun i s => {s with a := s.a.set i (rd s.c i), c := s.c.set i (rd s.a i)}) R
        (fun i s j' hij => by cases R <;> simp [Cpu.reg, rd_set_ne hij])
        (last + 1 - first) first {st with carry := 0} j (by omega)).trans
        (rd_reg_carry st 0 R j)
    · simp only [arithSwitch, reduceIte]
      exact (arLoop_reg_frame (fun i s =>
          let r := do_add s.carry (rd s.a i) (rd s.c i)
          {s with a := s.a.set i r.1, carry := r.2}) R
        (fun i s j' hij => by cases R <;> simp [Cpu.reg, rd_set_ne hij])
        (last + 1 - first) first {st with carry := 0} j (by omega)).trans
        (rd_reg_carry st 0 R j)
    · simp only [arithSwitch, reduceIte]
      exact (arLoop_reg_frame (fun i s =>
          let r := do_add s.carry (rd s.a i) (0)
          {s with a := s.a.set i r.1, carry := r.2}) R
        (fun i s j' hij => by cases R <;> simp [Cpu.reg, rd_set_ne hij])
        (last + 1 - first) first {{st with carry := 0} with carry := 1} j (by omega)).trans
        ((rd_reg_carry {st with carry := 0} 1 R j).trans (rd_reg_carry st 0 R j))
  · simp only [arithSwitch]
    repeat rw [if_neg (by omega)]
    cases R <;> rfl

/-! ## BCD ripple-carry addition -/

theorem sliceVal_set_lt (r : List Nat) (i v : Nat) :
    ∀ (k start : Nat), i < start → sliceVal (r.set i v) start k = sliceVal r start k := by
  intro k
  induction k with
  | zero => intro start _; rfl
  | succ n ih =>
    intro start h
    simp only [sliceVal]
    rw [rd_set_ne (by omega), ih (start + 1) (by omega)]

theorem do_add_digit {cy x y : Nat} (hx : x ≤ 9) (hy : y ≤ 9) (hcy : cy ≤ 1) :
    (do_add cy x y).1 + 10 * (do_add cy x y).2 = x + y + cy ∧
    (do_add cy x y).1 ≤ 9 ∧ (do_add cy x y).2 ≤ 1 := by
  unfold do_add
  dsimp only
  split <;> refine ⟨by omega, by omega, by omega⟩

theorem digit_mod_combine (d m M : Nat) (hd : d ≤ 9) (hM : 0 < M) :
    (d + 10 * m) % (10 * M) = d + 10 * (m % M) := by
  conv_lhs => rw [← Nat.div_add_mod m M]
  have h1 : d + 10 * (M * (m / M) + m % M) =
      (d + 10 * (m % M)) + (m / M) * (10 * M) := by ring
  rw [h1, Nat.add_mul_mod_self_right]
  exact Nat.mod_eq_of_lt (by have := Nat.mod_lt m hM; omega)

theorem addLoopAC (n : Nat) : ∀ (first : Nat) (st : Cpu),
    first + n ≤ st.c.length →
    (∀ k, k < n → rd st.a (first + k) ≤ 9) →
    (∀ k, k < n → rd st.c (first + k) ≤ 9) →
    st.carry ≤ 1 →
    (arLoop addBodyAC first n st).a = st.a ∧
    (arLoop addBodyAC first n st).c.length = st.c.length ∧
    (∀ j, j < first → rd (arLoop addBodyAC first n st).c j = rd st.c j) ∧
    sliceVal (arLoop addBodyAC first n st).c first n =
      (sliceVal st.a first n + sliceVal st.c first n + st.carry) % 10 ^ n ∧
    ((arLoop addBodyAC first n st).carry = 1 ↔
      10 ^ n ≤ sliceVal st.a first n + sliceVal st.c first n + st.carry) ∧
    (arLoop addBodyAC first n st).carry ≤ 1 := by
  induction n with
  | zero =>
    intro first st _ _ _ hcy
    refine ⟨rfl, rfl, fun j _ => rfl, by simp [sliceVal, arLoop, Nat.mod_one], ?_, hcy⟩
    simp only [sliceVal, arLoop, pow_zero]
    omega
  | succ k ih =>
    intro first st hlen ha hc hcy
    have hx0 : rd st.a first ≤ 9 := by simpa using ha 0 (by omega)
    have hy0 : rd st.c first ≤ 9 := by simpa using hc 0 (by omega)
    obtain ⟨hsum, hd, hcy1⟩ := do_add_digit hx0 hy0 hcy
    -- the first step of the loop
    have hstep : arLoop addBodyAC first (k + 1) st =
        arLoop addBodyAC (first + 1) k (addBodyAC first st) := rfl
    have hc1 : (addBodyAC first st).c =
        st.c.set first (do_add st.carry (rd st.a first) (rd st.c first)).1 := rfl
    have ha1 : (addBodyAC first st).a = st.a := rfl
    have hcarry1 : (addBodyAC first st).carry =
        (do_add st.carry (rd st.a first) (rd st.c first)).2 := rfl
    obtain ⟨iha, ihlen, ihframe, ihval, ihcarry, ihcy⟩ :=
      ih (first + 1) (addBodyAC first st)
        (by rw [hc1, List.length_set]; omega)
        (by intro k' hk'
            rw [ha1]
            have he : first + 1 + k' = first + (k' + 1) := by omega
            rw [he]; exact ha (k' + 1) (by omega))
        (by intro k' hk'
            rw [hc1, rd_set_ne (by omega)]
            have he : first + 1 + k' = first + (k' + 1) := by omega
            rw [he]; exact hc (k' + 1) (by omega))
        (by rw [hcarry1]; exact hcy1)
    rw [hstep]
    set L := arLoop addBodyAC (first + 1) k (addBodyAC first st) with hL
    have hLfirst : rd L.c first = (do_add st.carry (rd st.a first) (rd st.c first)).1 := by
      rw [ihframe first (by omega), hc1, rd_set_self (by omega)]
    have hA' : sliceVal (addBodyAC first st).a (first + 1) k =
        sliceVal st.a (first + 1) k := by rw [ha1]
    have hC' : sliceVal (addBodyAC first st).c (first + 1) k =
        sliceVal st.c (first + 1) k := by
      rw [hc1, sliceVal_set_lt _ _ _ k (first + 1) (by omega)]
    have hpow : (10 : Nat) ^ (k + 1) = 10 * 10 ^ k := by
      rw [pow_succ]; ring
    have hpos : 0 < (10 : Nat) ^ k := Nat.pos_pow_of_pos k (by omega)
    refine ⟨iha.trans ha1, ihlen.trans (by rw [hc1, List.length_set]), ?_, ?_, ?_, ihcy⟩
    · intro j hj
      rw [ihframe j (by omega), hc1, rd_set_ne (by omega)]
    · -- value equation
      have hv : sliceVal L.c first (k + 1) =
          rd L.c first + 10 * sliceVal L.c (first + 1) k := rfl
      rw [hv, hLfirst, ihval, hA', hC', hcarry1]
      simp only [sliceVal]
      have hgoal : rd st.a first + 10 * sliceVal st.a (first + 1) k +
          (rd st.c first + 10 * sliceVal st.c (first + 1) k) + st.carry =
          (do_add st.carry (rd st.a first) (rd st.c first)).1 +
          10 * (sliceVal st.a (first + 1) k + sliceVal st.c (first + 1) k +
            (do_add st.carry (rd st.a first) (rd st.c first)).2) := by omega
      rw [hgoal, hpow, digit_mod_combine _ _ _ hd hpos]
    · -- carry equation
      rw [ihcarry, hA', hC', hcarry1]
      simp only [sliceVal]
      rw [hpow]
      omega

theorem addLoopAB (n : Nat) : ∀ (first : Nat) (st : Cpu),
    first + n ≤ st.a.length →
    (∀ k, k < n → rd st.a (first + k) ≤ 9) →
    (∀ k, k < n → rd st.b (first + k) ≤ 9) →
    st.carry ≤ 1 →
    (arLoop addBodyAB first n st).b = st.b ∧
    (arLoop addBodyAB first n st).a.length = st.a.length ∧
    (∀ j, j < first → rd (arLoop addBodyAB first n st).a j = rd st.a j) ∧
    sliceVal (arLoop addBodyAB first n st).a first n =
      (sliceVal st.a first n + sliceVal st.b first n + st.carry) % 10 ^ n ∧
    ((arLoop addBodyAB first n st).carry = 1 ↔
      10 ^ n ≤ sliceVal st.a first n + sliceVal st.b first n + st.carry) ∧
    (arLoop addBodyAB first n st).carry ≤ 1 := by
  induction n with
  | zero =>
    intro first st _ _ _ hcy
    refine ⟨rfl, rfl, fun j _ => rfl, by simp [sliceVal, arLoop, Nat.mod_one], ?_, hcy⟩
    simp only [sliceVal, arLoop, pow_zero]
    omega
  | succ k ih =>
    intro first st hlen ha hb hcy
    have hx0 : rd st.a first ≤ 9 := by simpa using ha 0 (by omega)
    have hy0 : rd st.b first ≤ 9 := by simpa using hb 0 (by omega)
    obtain ⟨hsum, hd, hcy1⟩ := do_add_digit hx0 hy0 hcy
    have hstep : arLoop addBodyAB first (k + 1) st =
        arLoop addBodyAB (first + 1) k (addBodyAB first st) := rfl
    have ha1 : (addBodyAB first st).a =
        st.a.set first (do_add st.carry (rd st.a first) (rd st.b first)).1 := rfl
    have hb1 : (addBodyAB first st).b = st.b := rfl
    have hcarry1 : (addBodyAB first st).carry =
        (do_add st.carry (rd st.a first) (rd st.b first)).2 := rfl
    obtain ⟨ihb, ihlen, ihframe, ihval, ihcarry, ihcy⟩ :=
      ih (first + 1) (addBodyAB first st)
        (by rw [ha1, List.length_set]; omega)
        (by intro k' hk'
            rw [ha1, rd_set_ne (by omega)]
            have he : first + 1 + k' = first + (k' + 1) := by omega
            rw [he]; exact ha (k' + 1) (by omega))
        (by intro k' hk'
            rw [hb1]
            have he : first + 1 + k' = first + (k' + 1) := by omega
            rw [he]; exact hb (k' + 1) (by omega))
        (by rw [hcarry1]; exact hcy1)
    rw [hstep]
    set L := arLoop addBodyAB (first + 1) k (addBodyAB first st) with hL
    have hLfirst : rd L.a first =
        (do_add st.carry (rd st.a first) (rd st.b first)).1 := by
      rw [ihframe first (by omega), ha1, rd_set_self (by omega)]
    have hA' : sliceVal (addBodyAB first st).a (first + 1) k =
        sliceVal st.a (first + 1) k := by
      rw [ha1, sliceVal_set_lt _ _ _ k (first + 1) (by omega)]
    have hB' : sliceVal (addBodyAB first st).b (first + 1) k =
        sliceVal st.b (first + 1) k := by rw [hb1]
    have hpow : (10 : Nat) ^ (k + 1) = 10 * 10 ^ k := by
      rw [pow_succ]; ring
    have hpos : 0 < (10 : Nat) ^ k := Nat.pos_pow_of_pos k (by omega)
    refine ⟨ihb.trans hb1, ihlen.trans (by rw [ha1, List.length_set]), ?_, ?_, ?_, ihcy⟩
    · intro j hj
      rw [ihframe j (by omega), ha1, rd_set_ne (by omega)]
    · have hv : sliceVal L.a first (k + 1) =
          rd L.a first + 10 * sliceVal L.a (first + 1) k := rfl
      rw [hv, hLfirst, ihval, hA', hB', hcarry1]
      simp only [sliceVal]
      have hgoal : rd st.a first + 10 * sliceVal st.a (first + 1) k +
          (rd st.b first + 10 * sliceVal st.b (first + 1) k) + st.carry =
          (do_add st.carry (rd st.a first) (rd st.b first)).1 +
          10 * (sliceVal st.a (first + 1) k + sliceVal st.b (first + 1) k +
            (do_add st.carry (rd st.a first) (rd st.b first)).2) := by omega
      rw [hgoal, hpow, digit_mod_combine _ _ _ hd hpos]
    · rw [ihcarry, hA', hB', hcarry1]
      simp only [sliceVal]
      rw [hpow]
      omega

theorem addLoopCC (n : Nat) : ∀ (first : Nat) (st : Cpu),
    first + n ≤ st.c.length →
    (∀ k, k < n → rd st.c (first + k) ≤ 9) →
    st.carry ≤ 1 →
    (arLoop addBodyCC first n st).c.length = st.c.length ∧
    (∀ j, j < first → rd (arLoop addBodyCC first n st).c j = rd st.c j) ∧
    sliceVal (arLoop addBodyCC first n st).c first n =
      (sliceVal st.c first n + sliceVal st.c first n + st.carry) % 10 ^ n ∧
    ((arLoop addBodyCC first n st).carry = 1 ↔
      10 ^ n ≤ sliceVal st.c first n + sliceVal st.c first n + st.carry) ∧
    (arLoop addBodyCC first n st).carry ≤ 1 := by
  induction n with
  | zero =>
    intro first st _ _ hcy
    refine ⟨rfl, fun j _ => rfl, by simp [sliceVal, arLoop, Nat.mod_one], ?_, hcy⟩
    simp only [sliceVal, arLoop, pow_zero]
    omega
  | succ k ih =>
    intro first st hlen hc hcy
    have hy0 : rd st.c first ≤ 9 := by simpa using hc 0 (by omega)
    obtain ⟨hsum, hd, hcy1⟩ := do_add_digit hy0 hy0 hcy
    have hstep : arLoop addBodyCC first (k + 1) st =
        arLoop addBodyCC (first + 1) k (addBodyCC first st) := rfl
    have hc1 : (addBodyCC first st).c =
        st.c.set first (do_add st.carry (rd st.c first) (rd st.c first)).1 := rfl
    have hcarry1 : (addBodyCC first st).carry =
        (do_add st.carry (rd st.c first) (rd st.c first)).2 := rfl
    obtain ⟨ihlen, ihframe, ihval, ihcarry, ihcy⟩ :=
      ih (first + 1) (addBodyCC first st)
        (by rw [hc1, List.length_set]; omega)
        (by intro k' hk'
            rw [hc1, rd_set_ne (by omega)]
            have he : first + 1 + k' = first + (k' + 1) := by omega
            rw [he]; exact hc (k' + 1) (by omega))
        (by rw [hcarry1]; exact hcy1)
    rw [hstep]
    set L := arLoop addBodyCC (first + 1) k (addBodyCC first st) with hL
    have hLfirst : rd L.c first =
        (do_add st.carry (rd st.c first) (rd st.c first)).1 := by
      rw [ihframe first (by omega), hc1, rd_set_self (by omega)]
    have hC' : sliceVal (addBodyCC first st).c (first + 1) k =
        sliceVal st.c (first + 1) k := by
      rw [hc1, sliceVal_set_lt _ _ _ k (first + 1) (by omega)]
    have hpow : (10 : Nat) ^ (k + 1) = 10 * 10 ^ k := by
      rw [pow_succ]; ring
    have hpos : 0 < (10 : Nat) ^ k := Nat.pos_pow_of_pos k (by omega)
    refine ⟨ihlen.trans (by rw [hc1, List.length_set]), ?_, ?_, ?_, ihcy⟩
    · intro j hj
      rw [ihframe j (by omega), hc1, rd_set_ne (by omega)]
    · have hv : sliceVal L.c first (k + 1) =
          rd L.c first + 10 * sliceVal L.c (first + 1) k := rfl
      rw [hv, hLfirst, ihval, hC', hcarry1]
      simp only [sliceVal]
      have hgoal : rd st.c first + 10 * sliceVal st.c (first + 1) k +
          (rd st.c first + 10 * sliceVal st.c (first + 1) k) + st.carry =
          (do_add st.carry (rd st.c first) (rd st.c first)).1 +
          10 * (sliceVal st.c (first + 1) k + sliceVal st.c (first + 1) k +
            (do_add st.carry (rd st.c first) (rd st.c first)).2) := by omega
      rw [hgoal, hpow, digit_mod_combine _ _ _ hd hpos]
    · rw [ihcarry, hC', hcarry1]
      simp only [sliceVal]
      rw [hpow]
      omega

/-! ## Projection lemmas for the microcycle wrapper -/

theorem keyLatch_p (st : Cpu) : (keyLatch st).p = st.p := by
  unfold keyLatch; split <;> rfl

theorem keyLatch_a (st : Cpu) : (keyLatch st).a = st.a := by
  unfold keyLatch; split <;> rfl

theorem keyLatch_b (st : Cpu) : (keyLatch st).b = st.b := by
  unfold keyLatch; split <;> rfl

theorem keyLatch_c (st : Cpu) : (keyLatch st).c = st.c := by
  unfold keyLatch; split <;> rfl

theorem keyLatch_carry (st : Cpu) : (keyLatch st).carry = st.carry := by
  unfold keyLatch; split <;> rfl

theorem displayTail_a (s : Sys) : (displayTail s).cpu.a = s.cpu.a := by
  unfold displayTail; split_ifs <;> rfl

theorem displayTail_c (s : Sys) : (displayTail s).cpu.c = s.cpu.c := by
  unfold displayTail; split_ifs <;> rfl

theorem displayTail_carry (s : Sys) : (displayTail s).cpu.carry = s.cpu.carry := by
  unfold displayTail; split_ifs <;> rfl

/-- `microStep` on an arithmetic-family instruction: registers and carry
come from the arithmetic dispatch applied after the key latch, with the
slice decoded from the untouched pointer. -/
theorem microStep_arith (h l : Nat) (sys : Sys) (hl : l < 256)
    (hfam : l &&& 0x03 = 0x02) :
    (microStep h l sys).cpu.a =
      (arithSwitch (opOf h l)
        (sliceOf ((l >>> 2) &&& 0x07) sys.cpu.p).1
        (sliceOf ((l >>> 2) &&& 0x07) sys.cpu.p).2
        (keyLatch {sys.cpu with prevCarry := sys.cpu.carry, carry := 0,
                                pc := (sys.cpu.pc + 1) % 256})).a ∧
    (microStep h l sys).cpu.c =
      (arithSwitch (opOf h l)
        (sliceOf ((l >>> 2) &&& 0x07) sys.cpu.p).1
        (sliceOf ((l >>> 2) &&& 0x07) sys.cpu.p).2
        (keyLatch {sys.cpu with prevCarry := sys.cpu.carry, carry := 0,
                                pc := (sys.cpu.pc + 1) % 256})).c ∧
    (microStep h l sys).cpu.carry =
      (arithSwitch (opOf h l)
        (sliceOf ((l >>> 2) &&& 0x07) sys.cpu.p).1
        (sliceOf ((l >>> 2) &&& 0x07) sys.cpu.p).2
        (keyLatch {sys.cpu with prevCarry := sys.cpu.carry, carry := 0,
                                pc := (sys.cpu.pc + 1) % 256})).carry := by
  simp only [microStep]
  rw [instrStep_arith_eq h l hl hfam]
  unfold arithStep
  rw [if_pos hfam, keyLatch_p]
  exact ⟨displayTail_a _, displayTail_c _, displayTail_carry _⟩

theorem arithSwitch_0e (first last : Nat) (st : Cpu) :
    arithSwitch 0x0e first last st =
      arLoop addBodyAC first (last + 1 - first) {st with carry := 0} := rfl

theorem arithSwitch_1c (first last : Nat) (st : Cpu) :
    arithSwitch 0x1c first last st =
      arLoop addBodyAB first (last + 1 - first) {st with carry := 0} := rfl

theorem arithSwitch_15 (first last : Nat) (st : Cpu) :
    arithSwitch 0x15 first last st =
      arLoop addBodyCC first (last + 1 - first) {st with carry := 0} := rfl

theorem sliceOf_bounds (code p : Nat) (hp : p < 16) :
    (sliceOf code p).1 ≤ (sliceOf code p).2 ∧ (sliceOf code p).2 < 16 := by
  unfold sliceOf
  split
  · exact ⟨Nat.le_refl _, hp⟩
  · exact ⟨by decide, by decide⟩
  · exact ⟨by decide, by decide⟩
  · exact ⟨by decide, by decide⟩
  · exact ⟨Nat.zero_le _, hp⟩
  · exact ⟨by decide, by decide⟩
  · exact ⟨by decide, by decide⟩
  · exact ⟨by decide, by decide⟩
  · exact ⟨Nat.le_refl _, by decide⟩

/-- C1: for an add-class arithmetic microinstruction (`A+C→C`, `A+B→A` or
`C+C→C`, carry seeded to 0) over a digit slice whose operand nibbles are
decimal digits, the target slice receives the base-10 ripple-carry sum
reduced modulo `10^(last-first+1)`, and the final CARRY is 1 exactly when
the true decimal sum of the slice operands exceeds `10^(last-first+1)-1`. -/
theorem c1_add_slice_correct (h l first last n : Nat) (sys : Sys)
    (hl : l < 256) (hfam : l &&& 0x03 = 0x02)
    (hp : sys.cpu.p < 16)
    (hla : sys.cpu.a.length = 16) (hlb : sys.cpu.b.length = 16)
    (hlc : sys.cpu.c.length = 16)
    (hsl : sliceOf ((l >>> 2) &&& 0x07) sys.cpu.p = (first, last))
    (hn : n = last + 1 - first) :
    (opOf h l = 0x0e →
      (∀ i, first ≤ i → i ≤ last → rd sys.cpu.a i ≤ 9 ∧ rd sys.cpu.c i ≤ 9) →
      sliceVal (microStep h l sys).cpu.c first n =
        (sliceVal sys.cpu.a first n + sliceVal sys.cpu.c first n) % 10 ^ n ∧
      ((microStep h l sys).cpu.carry = 1 ↔
        10 ^ n - 1 < sliceVal sys.cpu.a first n + sliceVal sys.cpu.c first n)) ∧
    (opOf h l = 0x1c →
      (∀ i, first ≤ i → i ≤ last → rd sys.cpu.a i ≤ 9 ∧ rd sys.cpu.b i ≤ 9) →
      sliceVal (microStep h l sys).cpu.a first n =
        (sliceVal sys.cpu.a first n + sliceVal sys.cpu.b first n) % 10 ^ n ∧
      ((microStep h l sys).cpu.carry = 1 ↔
        10 ^ n - 1 < sliceVal sys.cpu.a first n + sliceVal sys.cpu.b first n)) ∧
    (opOf h l = 0x15 →
      (∀ i, first ≤ i → i ≤ last → rd sys.cpu.c i ≤ 9) →
      sliceVal (microStep h l sys).cpu.c first n =
        (sliceVal sys.cpu.c first n + sliceVal sys.cpu.c first n) % 10 ^ n ∧
      ((microStep h l sys).cpu.carry = 1 ↔
        10 ^ n - 1 < sliceVal sys.cpu.c first n + sliceVal sys.cpu.c first n)) := by
  subst hn
  obtain ⟨hbord, hlast16⟩ := sliceOf_bounds ((l >>> 2) &&& 0x07) sys.cpu.p hp
  rw [hsl] at hbord hlast16
  dsimp only at hbord hlast16
  obtain ⟨hma, hmc, hmcar⟩ := microStep_arith h l sys hl hfam
  rw [hsl] at hma hmc hmcar
  dsimp only at hma hmc hmcar
  set K := keyLatch {sys.cpu with prevCarry := sys.cpu.carry, carry := 0,
                                  pc := (sys.cpu.pc + 1) % 256} with hKdef
  have hKa : K.a = sys.cpu.a := by rw [hKdef, keyLatch_a]
  have hKb : K.b = sys.cpu.b := by rw [hKdef, keyLatch_b]
  have hKc : K.c = sys.cpu.c := by rw [hKdef, keyLatch_c]
  have hpow : 0 < (10 : Nat) ^ (last + 1 - first) :=
    Nat.pos_pow_of_pos _ (by omega)
  refine ⟨?_, ?_, ?_⟩
  · -- op 0x0e : A+C -> C
    intro hop hdig
    rw [hop, arithSwitch_0e] at hmc hmcar
    obtain ⟨hLa, hLlen, hLframe, hLval, hLcarry, hLcy⟩ :=
      addLoopAC (last + 1 - first) first ({K with carry := 0})
        (by rw [show ({K with carry := 0} : Cpu).c = K.c from rfl, hKc, hlc]; omega)
        (by intro k hk
            rw [show ({K with carry := 0} : Cpu).a = K.a from rfl, hKa]
            exact (hdig (first + k) (by omega) (by omega)).1)
        (by intro k hk
            rw [show ({K with carry := 0} : Cpu).c = K.c from rfl, hKc]
            exact (hdig (first + k) (by omega) (by omega)).2)
        (Nat.zero_le 1)
    constructor
    · rw [hmc]
      exact hLval.trans (by dsimp only; rw [hKa, hKc, Nat.add_zero])
    · rw [hmcar]
      exact hLcarry.trans (by dsimp only; rw [hKa, hKc]; omega)
  · -- op 0x1c : A+B -> A
    intro hop hdig
    rw [hop, arithSwitch_1c] at hma hmcar
    obtain ⟨hLb, hLlen, hLframe, hLval, hLcarry, hLcy⟩ :=
      addLoopAB (last + 1 - first) first ({K with carry := 0})
        (by rw [show ({K with carry := 0} : Cpu).a = K.a from rfl, hKa, hla]; omega)
        (by intro k hk
            rw [show ({K with carry := 0} : Cpu).a = K.a from rfl, hKa]
            exact (hdig (first + k) (by omega) (by omega)).1)
        (by intro k hk
            rw [show ({K with carry := 0} : Cpu).b = K.b from rfl, hKb]
            exact (hdig (first + k) (by omega) (by omega)).2)
        (Nat.zero_le 1)
    constructor
    · rw [hma]
      exact hLval.trans (by dsimp only; rw [hKa, hKb, Nat.add_zero])
    · rw [hmcar]
      exact hLcarry.trans (by dsimp only; rw [hKa, hKb]; omega)
  · -- op 0x15 : C+C -> C
    intro hop hdig
    rw [hop, arithSwitch_15] at hmc hmcar
    obtain ⟨hLlen, hLframe, hLval, hLcarry, hLcy⟩ :=
      addLoopCC (last + 1 - first) first ({K with carry := 0})
        (by rw [show ({K with carry := 0} : Cpu).c = K.c from rfl, hKc, hlc]; omega)
        (by intro k hk
            rw [show ({K with carry := 0} : Cpu).c = K.c from rfl, hKc]
            exact hdig (first + k) (by omega) (by omega))
        (Nat.zero_le 1)
    constructor
    · rw [hmc]
      exact hLval.trans (by dsimp only; rw [hKc, Nat.add_zero])
    · rw [hmcar]
      exact hLcarry.trans (by dsimp only; rw [hKc]; omega)

/-! ## C2: frame property of a full arithmetic microcycle -/

theorem displayTail_reg (s : Sys) (R : RegName) :
    (displayTail s).cpu.reg R = s.cpu.reg R := by
  unfold displayTail
  split_ifs <;> cases R <;> rfl

theorem keyLatch_reg (st : Cpu) (R : RegName) :
    (keyLatch st).reg R = st.reg R := by
  unfold keyLatch
  split <;> cases R <;> rfl

theorem sliceOf_le (code p : Nat) : (sliceOf code p).1 ≤ (sliceOf code p).2 := by
  unfold sliceOf
  split
  · exact Nat.le_refl _
  · decide
  · decide
  · decide
  · exact Nat.zero_le _
  · decide
  · decide
  · decide
  · exact Nat.le_refl _

theorem microStep_arith_reg (h l : Nat) (sys : Sys) (hl : l < 256)
    (hfam : l &&& 0x03 = 0x02) (R : RegName) :
    (microStep h l sys).cpu.reg R =
      (arithSwitch (opOf h l)
        (sliceOf ((l >>> 2) &&& 0x07) sys.cpu.p).1
        (sliceOf ((l >>> 2) &&& 0x07) sys.cpu.p).2
        (keyLatch {sys.cpu with prevCarry := sys.cpu.carry, carry := 0,
                                pc := (sys.cpu.pc + 1) % 256})).reg R := by
  simp only [microStep]
  rw [instrStep_arith_eq h l hl hfam]
  unfold arithStep
  rw [if_pos hfam, keyLatch_p]
  exact displayTail_reg _ R

/-- C2: an arithmetic-family microinstruction (`L & 3 == 2`) with decoded
slice `[first..last]` changes no register entry at an index outside the
closed range `[first..last]`; this holds for every one of the eight
register arrays. -/
theorem c2_arith_frame (h l : Nat) (sys : Sys) (R : RegName) (j : Nat)
    (hl : l < 256) (hfam : l &&& 0x03 = 0x02)
    (hout : j < (sliceOf ((l >>> 2) &&& 0x07) sys.cpu.p).1 ∨
            (sliceOf ((l >>> 2) &&& 0x07) sys.cpu.p).2 < j) :
    rd ((microStep h l sys).cpu.reg R) j = rd (sys.cpu.reg R) j := by
  rw [microStep_arith_reg h l sys hl hfam R]
  refine (arithSwitch_frame _ _ _ (sliceOf_le _ _) _ R j hout).trans ?_
  rw [keyLatch_reg]
  cases R <;> rfl

/-- Witness for the frame theorem: a concrete arithmetic instruction on
the power-on state does not change register B at index 5, which is
outside its pointer slice `[0..0]`. -/
theorem c2_arith_frame_witness :
    (2 : Nat) < 256 ∧ (2 : Nat) &&& 0x03 = 0x02 ∧
    rd ((microStep 0 2 initSys).cpu.reg RegName.B) 5 =
      rd (initSys.cpu.reg RegName.B) 5 :=
  ⟨by decide, by decide,
    c2_arith_frame 0 2 initSys RegName.B 5 (by decide) (by decide)
      (by decide)⟩

/-! ## C3: decoder exclusivity and totality -/

set_option maxRecDepth 8000 in
theorem guards_excl : ∀ h < 4, ∀ l < 256, (guards h l).count true ≤ 1 := by
  decide

theorem guards_and3 (h l : Nat) : guards h l = guards (h &&& 0x03) l := by
  have h33 : (3 : Nat) &&& 3 = 3 := by decide
  simp only [guards, Nat.land_assoc, h33]

/-- C3: the decoder is exclusive and total — no byte pair `(H, L)`
matches two decoder guards in one microcycle, and a pair matching no
guard performs only the bookkeeping cycle (carry rollover, PC increment,
key latch, display tail). -/
theorem c3_decoder_exclusive_total (h l : Nat) (hh : h < 256) (hl : l < 256) :
    (guards h l).count true ≤ 1 ∧
    ((guards h l).count true = 0 →
      ∀ sys : Sys, microStep h l sys = noopCycle sys) := by
  constructor
  · rw [guards_and3]
    exact guards_excl (h &&& 0x03)
      (Nat.lt_succ_of_le Nat.and_le_right) l hl
  · intro hz sys
    have hmem : true ∉ guards h l := List.count_eq_zero.mp hz
    have g1 : ¬(l &&& 0x03 = 0x01) := fun hp => hmem (by simp [guards, hp])
    have g2 : ¬(l &&& 0x7f = 0x30) := fun hp => hmem (by simp [guards, hp])
    have g3 : ¬(l &&& 0x7f = 0x10) := fun hp => hmem (by simp [guards, hp])
    have g4 : ¬(l = 0xd0) := fun hp => hmem (by simp [guards, hp])
    have g5 : ¬(l &&& 0x3f = 0x14) := fun hp => hmem (by simp [guards, hp])
    have g6 : ¬(l &&& 0x3f = 0x04) := fun hp => hmem (by simp [guards, hp])
    have g7 : ¬(l &&& 0x3f = 0x24) := fun hp => hmem (by simp [guards, hp])
    have g8 : ¬(l &&& 0x3f = 0x34) := fun hp => hmem (by simp [guards, hp])
    have g9 : ¬(l &&& 0x3f = 0x2c) := fun hp => hmem (by simp [guards, hp])
    have g10 : ¬(l &&& 0x3f = 0x0c) := fun hp => hmem (by simp [guards, hp])
    have g11 : ¬(l &&& 0x3f = 0x3c) := fun hp => hmem (by simp [guards, hp])
    have g12 : ¬(l &&& 0x3f = 0x1c) := fun hp => hmem (by simp [guards, hp])
    have g13 : ¬(l &&& 0x3f = 0x18) := fun hp => hmem (by simp [guards, hp])
    have g14 : ¬(h &&& 0x03 = 0 ∧ l &&& 0xef = 0xa8) := fun hp =>
      hmem (by simp [guards, hp.1, hp.2])
    have g15 : ¬(h &&& 0x03 = 1 ∧ l &&& 0xef = 0x28) := fun hp =>
      hmem (by simp [guards, hp.1, hp.2])
    have g16 : ¬(h &&& 0x03 = 1 ∧ l &&& 0xef = 0xa8) := fun hp =>
      hmem (by simp [guards, hp.1, hp.2])
    have g17 : ¬(h &&& 0x03 = 2 ∧ l &&& 0xef = 0xa8) := fun hp =>
      hmem (by simp [guards, hp.1, hp.2])
    have g18 : ¬(h &&& 0x03 = 3 ∧ l &&& 0xef = 0x28) := fun hp =>
      hmem (by simp [guards, hp.1, hp.2])
    have g19 : ¬(h &&& 0x03 = 3 ∧ l &&& 0xef = 0xa8) := fun hp =>
      hmem (by simp [guards, hp.1, hp.2])
    have g20 : ¬(h &&& 0x03 = 0 ∧ l &&& 0xef = 0x28) := fun hp =>
      hmem (by simp [guards, hp.1, hp.2])
    have g21 : ¬(h &&& 0x03 = 2 ∧ l &&& 0xef = 0x28) := fun hp =>
      hmem (by simp [guards, hp.1, hp.2])
    have g22 : ¬(l &&& 0x03 = 0x03) := fun hp => hmem (by simp [guards, hp])
    have g23 : ¬(l &&& 0x03 = 0x02) := fun hp => hmem (by simp [guards, hp])
    have hinstr : ∀ st : Cpu, instrStep h l st = keyLatch st := by
      intro st
      unfold instrStep jsbStep retStep romStep jumpKeyStep miscStep
        specialStep branchStep arithStep
      simp [g1, g2, g3, g4, g5, g6, g7, g8, g9, g10, g11, g12, g13, g14,
        g15, g16, g17, g18, g19, g20, g21, g22, g23]
    simp only [microStep, noopCycle]
    rw [hinstr]

/-- Witness: the pair `(0, 0)` is a decoder no-op; the exclusivity bound
and the bookkeeping-cycle equation hold at it. -/
theorem c3_decoder_witness :
    (guards 0 0).count true ≤ 1 ∧
    ((guards 0 0).count true = 0 →
      ∀ sys : Sys, microStep 0 0 sys = noopCycle sys) :=
  c3_decoder_exclusive_total 0 0 (by decide) (by decide)

/-! ## C4: push and pop -/

theorem displayTail_d (s : Sys) : (displayTail s).cpu.d = s.cpu.d := by
  unfold displayTail; split_ifs <;> rfl

theorem displayTail_e (s : Sys) : (displayTail s).cpu.e = s.cpu.e := by
  unfold displayTail; split_ifs <;> rfl

theorem displayTail_f (s : Sys) : (displayTail s).cpu.f = s.cpu.f := by
  unfold displayTail; split_ifs <;> rfl

theorem keyLatch_d (st : Cpu) : (keyLatch st).d = st.d := by
  unfold keyLatch; split <;> rfl

theorem keyLatch_e (st : Cpu) : (keyLatch st).e = st.e := by
  unfold keyLatch; split <;> rfl

theorem keyLatch_f (st : Cpu) : (keyLatch st).f = st.f := by
  unfold keyLatch; split <;> rfl

theorem specialStep_push (h l : Nat) (hh3 : h &&& 0x03 = 1)
    (hlef : l &&& 0xef = 0x28) (st : Cpu) :
    specialStep h l st =
      {st with f := copyW st.f st.e, e := copyW st.e st.d,
               d := copyW st.d st.c} := by
  unfold specialStep
  simp [hh3, hlef]

theorem specialStep_pop (h l : Nat) (hh3 : h &&& 0x03 = 1)
    (hlef : l &&& 0xef = 0xa8) (st : Cpu) :
    specialStep h l st =
      {st with a := copyW st.a st.d, d := copyW st.d st.e,
               e := copyW st.e st.f} := by
  unfold specialStep
  simp [hh3, hlef]

theorem microStep_push_regs (h l : Nat) (sys : Sys) (hl : l < 256)
    (hh3 : h &&& 0x03 = 1) (hlef : l &&& 0xef = 0x28) :
    (microStep h l sys).cpu.a = sys.cpu.a ∧
    (microStep h l sys).cpu.c = sys.cpu.c ∧
    (microStep h l sys).cpu.d = copyW sys.cpu.d sys.cpu.c ∧
    (microStep h l sys).cpu.e = copyW sys.cpu.e sys.cpu.d ∧
    (microStep h l sys).cpu.f = copyW sys.cpu.f sys.cpu.e := by
  simp only [microStep]
  rw [instrStep_special_eq h l hl (Or.inl hlef), specialStep_push h l hh3 hlef]
  refine ⟨?_, ?_, ?_, ?_, ?_⟩
  · rw [displayTail_a]; dsimp only; rw [keyLatch_a]
  · rw [displayTail_c]; dsimp only; rw [keyLatch_c]
  · rw [displayTail_d]; dsimp only; rw [keyLatch_d, keyLatch_c]
  · rw [displayTail_e]; dsimp only; rw [keyLatch_e, keyLatch_d]
  · rw [displayTail_f]; dsimp only; rw [keyLatch_f, keyLatch_e]

theorem microStep_pop_regs (h l : Nat) (sys : Sys) (hl : l < 256)
    (hh3 : h &&& 0x03 = 1) (hlef : l &&& 0xef = 0xa8) :
    (microStep h l sys).cpu.a = copyW sys.cpu.a sys.cpu.d ∧
    (microStep h l sys).cpu.c = sys.cpu.c ∧
    (microStep h l sys).cpu.d = copyW sys.cpu.d sys.cpu.e ∧
    (microStep h l sys).cpu.e = copyW sys.cpu.e sys.cpu.f ∧
    (microStep h l sys).cpu.f = sys.cpu.f := by
  simp only [microStep]
  rw [instrStep_special_eq h l hl (Or.inr hlef), specialStep_pop h l hh3 hlef]
  refine ⟨?_, ?_, ?_, ?_, ?_⟩
  · rw [displayTail_a]; dsimp only; rw [keyLatch_a, keyLatch_d]
  · rw [displayTail_c]; dsimp only; rw [keyLatch_c]
  · rw [displayTail_d]; dsimp only; rw [keyLatch_d, keyLatch_e]
  · rw [displayTail_e]; dsimp only; rw [keyLatch_e, keyLatch_f]
  · rw [displayTail_f]; dsimp only; rw [keyLatch_f]

theorem take14_copyW (dst src : List Nat) (hs : 14 ≤ src.length) :
    (copyW dst src).take 14 = src.take 14 :=
  List.take_left' (by rw [List.length_take]; omega)

theorem drop14_copyW (dst src : List Nat) (hs : 14 ≤ src.length) :
    (copyW dst src).drop 14 = dst.drop 14 :=
  List.drop_left' (by rw [List.length_take]; omega)

theorem copyW_eq (dst src : List Nat) :
    copyW dst src = src.take 14 ++ dst.drop 14 := rfl

/-- A register-file state with `E ≠ F`, exhibiting the push/pop
asymmetry on the F register. -/
def c4Sys : Sys :=
  {initSys with cpu := {initSys.cpu with f := 1 :: List.replicate 15 0}}

/-- C4 counterexample: executing push (`H&3=1, L&0xEF=0x28`) then pop
(`H&3=1, L&0xEF=0xA8`) does not restore F to its pre-push value: with
`E = 0…0` and `F = 10…0`, F ends as the old E. -/
theorem c4_push_pop_counterexample :
    (1 : Nat) &&& 0x03 = 1 ∧ (0x28 : Nat) &&& 0xef = 0x28 ∧
    (0xa8 : Nat) &&& 0xef = 0xa8 ∧
    (microStep 1 0xa8 (microStep 1 0x28 c4Sys)).cpu.f ≠ c4Sys.cpu.f := by
  refine ⟨by decide, by decide, by decide, by decide⟩

/-- C4 amended: push then pop restores D and E, leaves C untouched
(equal to the pushed value) and copies the pushed C into A; but F ends
holding the 14 working nibbles of the pre-push E, not the pre-push F. -/
theorem c4_push_pop_amended (h1 l1 h2 l2 : Nat) (sys : Sys)
    (hl1 : l1 < 256) (hh1 : h1 &&& 0x03 = 1) (hlef1 : l1 &&& 0xef = 0x28)
    (hl2 : l2 < 256) (hh2 : h2 &&& 0x03 = 1) (hlef2 : l2 &&& 0xef = 0xa8)
    (hlc : sys.cpu.c.length = 16) (hld : sys.cpu.d.length = 16)
    (hle : sys.cpu.e.length = 16) :
    (microStep h2 l2 (microStep h1 l1 sys)).cpu.d = sys.cpu.d ∧
    (microStep h2 l2 (microStep h1 l1 sys)).cpu.e = sys.cpu.e ∧
    (microStep h2 l2 (microStep h1 l1 sys)).cpu.c = sys.cpu.c ∧
    (microStep h2 l2 (microStep h1 l1 sys)).cpu.f = copyW sys.cpu.f sys.cpu.e ∧
    (microStep h2 l2 (microStep h1 l1 sys)).cpu.a = copyW sys.cpu.a sys.cpu.c := by
  obtain ⟨pa, pc, pd, pe, pf⟩ := microStep_push_regs h1 l1 sys hl1 hh1 hlef1
  obtain ⟨qa, qc, qd, qe, qf⟩ :=
    microStep_pop_regs h2 l2 (microStep h1 l1 sys) hl2 hh2 hlef2
  refine ⟨?_, ?_, ?_, ?_, ?_⟩
  · rw [qd, pd, pe,
      copyW_eq (copyW sys.cpu.d sys.cpu.c) (copyW sys.cpu.e sys.cpu.d),
      take14_copyW _ _ (by omega), drop14_copyW _ _ (by omega),
      List.take_append_drop]
  · rw [qe, pe, pf,
      copyW_eq (copyW sys.cpu.e sys.cpu.d) (copyW sys.cpu.f sys.cpu.e),
      take14_copyW _ _ (by omega), drop14_copyW _ _ (by omega),
      List.take_append_drop]
  · rw [qc, pc]
  · rw [qf, pf]
  · rw [qa, pa, pd,
      copyW_eq sys.cpu.a (copyW sys.cpu.d sys.cpu.c),
      take14_copyW _ _ (by omega)]
    rfl

/-! ## C5: the script sequencer and key presses -/

theorem displayTail_isrun (sys : Sys) : (displayTail sys).isrun = sys.isrun := by
  unfold displayTail; split_ifs <;> rfl

theorem displayTail_memp (sys : Sys) : (displayTail sys).memp = sys.memp := by
  unfold displayTail; split_ifs <;> rfl

theorem trapCheck_isrun (sys : Sys) : (trapCheck sys).isrun = sys.isrun := by
  unfold trapCheck; split <;> rfl

theorem trapCheck_memp (sys : Sys) : (trapCheck sys).memp = sys.memp := by
  unfold trapCheck; split <;> rfl

theorem process_rom_isrun (sys : Sys) :
    (process_rom sys).isrun = sys.isrun := by
  simp only [process_rom, microStep]
  rw [displayTail_isrun]
  exact trapCheck_isrun sys

theorem process_rom_memp (sys : Sys) :
    (process_rom sys).memp = sys.memp := by
  simp only [process_rom, microStep]
  rw [displayTail_memp]
  exact trapCheck_memp sys

theorem getKeyStep_isrun (raw : Nat) (sys : Sys) :
    (getKeyStep raw sys).isrun = sys.isrun := by
  unfold getKeyStep; split <;> rfl

theorem keyExec_no_key (sys : Sys) (h : sys.key = 0 ∨ 255 ≤ sys.key) :
    keyExec sys = sys := by
  unfold keyExec
  rw [if_neg (by omega)]

theorem keyExec_pressed_isrun (sys : Sys) (h0 : sys.key ≠ 0)
    (h255 : sys.key < 255)
    (hcode : sys.key = 1 ∨ rd k2c (sys.fg * 16 + sys.key - 1) ≤ 65) :
    (keyExec sys).isrun = false := by
  simp only [keyExec]
  rw [if_pos ⟨h0, h255⟩]
  by_cases hk1 : sys.key = 1
  · rw [if_pos hk1]; split <;> rfl
  · rw [if_neg hk1]
    have hc : rd k2c (sys.fg * 16 + sys.key - 1) ≤ 65 := hcode.resolve_left hk1
    by_cases h64 : rd k2c (sys.fg * 16 + sys.key - 1) = 64
    · rw [if_pos h64]
    · rw [if_neg h64]
      by_cases h65 : rd k2c (sys.fg * 16 + sys.key - 1) = 65
      · rw [if_pos h65]
      · rw [if_neg h65, if_neg (by omega)]

theorem seqFeed_not_run (sys : Sys) (h : sys.isrun = false) :
    seqFeed sys = sys := by
  unfold seqFeed
  rw [if_neg (by simp [h])]

theorem seqFeed_isrun_iff (sys : Sys) (hrun : sys.isrun = true) :
    ((seqFeed sys).isrun = false ↔
      sys.cpu.islock = false ∧ 5 < sys.cpu.count ∧ rd mem sys.memp = 255) := by
  simp only [seqFeed]
  by_cases hl : sys.cpu.islock = false
  · rw [if_pos ⟨by simp [hrun], hl⟩]
    by_cases hcnt : 5 < sys.cpu.count
    · rw [if_pos hcnt]
      by_cases hcmd : rd mem sys.memp = 255
      · rw [if_pos hcmd]
        simp [hl, hcnt, hcmd]
      · rw [if_neg hcmd]
        simp [hrun, hcmd]
    · rw [if_neg hcnt]
      simp [hrun, hcnt]
  · rw [if_neg (by simp [hl])]
    simp [hrun, hl]

set_option maxRecDepth 100000 in
/-- C5 counterexample: after the key script `[1,0,1,6,2]` the sequencer is
armed on tape cell 120 (whose byte is 12, not the sentinel 255); the very
next loop iteration, with the freshly pressed key 2 pending, disarms it
while the tape pointer still sits at 120 — a key press disarms the
sequencer before the sentinel is reached. -/
theorem c5_sequencer_counterexample :
    (runLoop [1, 0, 1, 6, 2] initSys).isrun = true ∧
    (runLoop [1, 0, 1, 6, 2] initSys).memp = 120 ∧
    rd mem 120 = 12 ∧
    (runLoop [1, 0, 1, 6, 2, 2] initSys).isrun = false ∧
    (runLoop [1, 0, 1, 6, 2, 2] initSys).memp = 120 :=
  ⟨rfl, rfl, rfl, rfl, rfl⟩

/-- C5 amended: while the sequencer is armed, an iteration without a
delivered key disarms it exactly when the interlock is clear, the warm-up
counter has passed 5 and the tape byte under the pointer is the sentinel
255; but an iteration with a delivered key other than the mode key whose
key code is not an extended-function code — and likewise the mode key
itself — disarms the sequencer unconditionally, sentinel or not. -/
theorem c5_sequencer_amended (k : Nat) (sys : Sys) (hrun : sys.isrun = true) :
    ((sys.key = 0 ∨ 255 ≤ sys.key) →
      ((loopStep k sys).isrun = false ↔
        (process_rom sys).cpu.islock = false ∧
        5 < (process_rom sys).cpu.count ∧ rd mem sys.memp = 255)) ∧
    ((sys.key ≠ 0 ∧ sys.key < 255 ∧
      (sys.key = 1 ∨ rd k2c (sys.fg * 16 + sys.key - 1) ≤ 65)) →
      (loopStep k sys).isrun = false) := by
  constructor
  · intro hnk
    unfold loopStep
    rw [keyExec_no_key sys hnk, getKeyStep_isrun]
    have hpr : (process_rom sys).isrun = true := by
      rw [process_rom_isrun]; exact hrun
    rw [seqFeed_isrun_iff (process_rom sys) hpr, process_rom_memp]
  · rintro ⟨h0, h255, hcode⟩
    unfold loopStep
    have hke : (keyExec sys).isrun = false := keyExec_pressed_isrun sys h0 h255 hcode
    have hpr : (process_rom (keyExec sys)).isrun = false := by
      rw [process_rom_isrun]; exact hke
    rw [getKeyStep_isrun, seqFeed_not_run _ hpr, hpr]

set_option maxRecDepth 100000 in
/-- Witness for the C5 amended theorem: the armed state reached by the
key script `[1,0,1,6,2]`, one further iteration with no key delivered. -/
theorem c5_sequencer_amended_witness :
    (({runLoop [1, 0, 1, 6, 2] initSys with key := 0} : Sys).isrun = true) ∧
    ((({runLoop [1, 0, 1, 6, 2] initSys with key := 0} : Sys).key = 0 ∨
      255 ≤ ({runLoop [1, 0, 1, 6, 2] initSys with key := 0} : Sys).key) →
      ((loopStep 0 ({runLoop [1, 0, 1, 6, 2] initSys with key := 0} : Sys)).isrun = false ↔
        (process_rom ({runLoop [1, 0, 1, 6, 2] initSys with key := 0} : Sys)).cpu.islock = false ∧
        5 < (process_rom ({runLoop [1, 0, 1, 6, 2] initSys with key := 0} : Sys)).cpu.count ∧
        rd mem ({runLoop [1, 0, 1, 6, 2] initSys with key := 0} : Sys).memp = 255)) :=
  ⟨rfl, (c5_sequencer_amended 0 _ rfl).1⟩

/-! ## C6: the key-pending status bit S[0] -/

theorem keyLatch_s (st : Cpu) :
    (keyLatch st).s = if st.key_code < 255 then st.s.set 0 1 else st.s := by
  unfold keyLatch; split <;> rfl

theorem jsbStep_s (h l : Nat) (st : Cpu) : (jsbStep h l st).s = st.s := by
  unfold jsbStep; split <;> rfl

theorem retStep_s (l : Nat) (st : Cpu) : (retStep l st).s = st.s := by
  unfold retStep; split <;> rfl

theorem romStep_s (h l : Nat) (st : Cpu) : (romStep h l st).s = st.s := by
  unfold romStep; split <;> rfl

theorem jumpKeyStep_s (l : Nat) (st : Cpu) :
    (jumpKeyStep l st).s = if l = 0xd0 then st.s.set 0 0 else st.s := by
  unfold jumpKeyStep; split <;> rfl

theorem branchStep_s (h l : Nat) (st : Cpu) : (branchStep h l st).s = st.s := by
  unfold branchStep; split <;> rfl

theorem miscStep_s (h l : Nat) (st : Cpu) :
    (miscStep h l st).s =
      (if l &&& 0x3f = 0x04 then st.s.set (bitsel h l) 1
       else if l &&& 0x3f = 0x24 then st.s.set (bitsel h l) 0
       else if l &&& 0x3f = 0x34 then List.replicate 12 0
       else st.s) := by
  simp only [miscStep]
  by_cases h14 : l &&& 0x3f = 0x14
  · rw [if_neg (by rw [h14]; decide), if_neg (by rw [h14]; decide),
      if_neg (by rw [h14]; decide), if_neg (by rw [h14]; decide),
      if_neg (by rw [h14]; decide), if_neg (by rw [h14]; decide),
      if_neg (by rw [h14]; decide), if_neg (by rw [h14]; decide), if_pos h14,
      if_neg (by rw [h14]; decide), if_neg (by rw [h14]; decide),
      if_neg (by rw [h14]; decide)]
  by_cases h04 : l &&& 0x3f = 0x04
  · rw [if_neg (by rw [h04]; decide), if_neg (by rw [h04]; decide),
      if_neg (by rw [h04]; decide), if_neg (by rw [h04]; decide),
      if_neg (by rw [h04]; decide), if_neg (by rw [h04]; decide),
      if_neg (by rw [h04]; decide), if_pos h04, if_neg h14, if_pos h04]
  by_cases h24 : l &&& 0x3f = 0x24
  · rw [if_neg (by rw [h24]; decide), if_neg (by rw [h24]; decide),
      if_neg (by rw [h24]; decide), if_neg (by rw [h24]; decide),
      if_neg (by rw [h24]; decide), if_neg (by rw [h24]; decide),
      if_pos h24, if_neg h04, if_neg h14, if_neg h04, if_pos h24]
  by_cases h34 : l &&& 0x3f = 0x34
  · rw [if_neg (by rw [h34]; decide), if_neg (by rw [h34]; decide),
      if_neg (by rw [h34]; decide), if_neg (by rw [h34]; decide),
      if_neg (by rw [h34]; decide), if_pos h34, if_neg h24, if_neg h04,
      if_neg h14, if_neg h04, if_neg h24, if_pos h34]
  by_cases h2c : l &&& 0x3f = 0x2c
  · rw [if_neg (by rw [h2c]; decide), if_neg (by rw [h2c]; decide),
      if_neg (by rw [h2c]; decide), if_neg (by rw [h2c]; decide),
      if_pos h2c, if_neg h34, if_neg h24, if_neg h04, if_neg h14,
      if_neg h04, if_neg h24, if_neg h34]
  by_cases h0c : l &&& 0x3f = 0x0c
  · rw [if_neg (by rw [h0c]; decide), if_neg (by rw [h0c]; decide),
      if_neg (by rw [h0c]; decide), if_pos h0c, if_neg h2c, if_neg h34,
      if_neg h24, if_neg h04, if_neg h14, if_neg h04, if_neg h24, if_neg h34]
  by_cases h3c : l &&& 0x3f = 0x3c
  · rw [if_neg (by rw [h3c]; decide), if_neg (by rw [h3c]; decide),
      if_pos h3c, if_neg h0c, if_neg h2c, if_neg h34, if_neg h24,
      if_neg h04, if_neg h14, if_neg h04, if_neg h24, if_neg h34]
  by_cases h1c : l &&& 0x3f = 0x1c
  · rw [if_neg (by rw [h1c]; decide), if_pos h1c, if_neg h3c, if_neg h0c,
      if_neg h2c, if_neg h34, if_neg h24, if_neg h04, if_neg h14,
      if_neg h04, if_neg h24, if_neg h34]
  by_cases h18 : l &&& 0x3f = 0x18
  · rw [if_pos h18, if_neg h1c, if_neg h3c, if_neg h0c, if_neg h2c,
      if_neg h34, if_neg h24, if_neg h04, if_neg h14, if_neg h04,
      if_neg h24, if_neg h34]
  rw [if_neg h18, if_neg h1c, if_neg h3c, if_neg h0c, if_neg h2c,
    if_neg h34, if_neg h24, if_neg h04, if_neg h14, if_neg h04,
    if_neg h24, if_neg h34]


set_option maxHeartbeats 3200000 in
/-- Generic observation lemma for the 32-way arithmetic dispatch: any
observation `g` invariant under single-cell writes to A, B, C, T (with or
without a carry write) and under carry writes is preserved by
`arithSwitch`. -/
theorem arithSwitch_obs {α : Type} (g : Cpu → α)
    (gX : ∀ (s : Cpu) (x : Nat), g {s with carry := x} = g s)
    (gA : ∀ (s : Cpu) (i v : Nat), g {s with a := s.a.set i v} = g s)
    (gB : ∀ (s : Cpu) (i v : Nat), g {s with b := s.b.set i v} = g s)
    (gC : ∀ (s : Cpu) (i v : Nat), g {s with c := s.c.set i v} = g s)
    (gAB : ∀ (s : Cpu) (i v w : Nat),
      g {s with a := s.a.set i v, b := s.b.set i w} = g s)
    (gBC : ∀ (s : Cpu) (i v w : Nat),
      g {s with b := s.b.set i v, c := s.c.set i w} = g s)
    (gAC : ∀ (s : Cpu) (i v w : Nat),
      g {s with a := s.a.set i v, c := s.c.set i w} = g s)
    (gAX : ∀ (s : Cpu) (i v x : Nat),
      g {s with a := s.a.set i v, carry := x} = g s)
    (gCX : ∀ (s : Cpu) (i v x : Nat),
      g {s with c := s.c.set i v, carry := x} = g s)
    (gTX : ∀ (s : Cpu) (i v x : Nat),
      g {s with t := s.t.set i v, carry := x} = g s)
    (op first last : Nat) (st : Cpu) :
    g (arithSwitch op first last st) = g st := by
  rcases Nat.lt_or_ge op 32 with hop | hop
  · interval_cases op
    · simp only [arithSwitch, reduceIte]
      exact (arLoop_obs g (fun i s => if rd s.b i ≠ 0 then {s with carry := 1} else s) (fun i s => by dsimp only; split <;> first | exact gX _ _ | rfl)
        (last + 1 - first) first {st with carry := 0}).trans (gX st 0)
    · simp only [arithSwitch, reduceIte]
      exact (arLoop_obs g (fun i s => {s with b := s.b.set i 0}) (fun i s => gB s i _)
        (last + 1 - first) first {st with carry := 0}).trans (gX st 0)
    · simp only [arithSwitch, reduceIte]
      exact (arLoop_obs g (fun i s => let r := do_sub s.carry (rd s.a i) (rd s.c i); {s with t := s.t.set i r.1, carry := r.2}) (fun i s => gTX s i _ _)
        (last + 1 - first) first {st with carry := 0}).trans (gX st 0)
    · simp only [arithSwitch, reduceIte]
      exact (arLoop_obs g (fun i s => if rd s.c i ≠ 0 then {s with carry := 0} else s) (fun i s => by dsimp only; split <;> first | exact gX _ _ | rfl)
        (last + 1 - first) first {{st with carry := 0} with carry := 1}).trans
        ((gX _ 1).trans (gX st 0))
    · simp only [arithSwitch, reduceIte]
      exact (arLoop_obs g (fun i s => {s with c := s.c.set i (rd s.b i)}) (fun i s => gC s i _)
        (last + 1 - first) first {st with carry := 0}).trans (gX st 0)
    · simp only [arithSwitch, reduceIte]
      exact (arLoop_obs g (fun i s => let r := do_sub s.carry 0 (rd s.c i); {s with c := s.c.set i r.1, carry := r.2}) (fun i s => gCX s i _ _)
        (last + 1 - first) first {st with carry := 0}).trans (gX st 0)
    · simp only [arithSwitch, reduceIte]
      exact (arLoop_obs g (fun i s => {s with c := s.c.set i 0}) (fun i s => gC s i _)
        (last + 1 - first) first {st with carry := 0}).trans (gX st 0)
    · simp only [arithSwitch, reduceIte]
      exact (arLoop_obs g (fun i s => let r := do_sub s.carry 0 (rd s.c i); {s with c := s.c.set i r.1, carry := r.2}) (fun i s => gCX s i _ _)
        (last + 1 - first) first {{st with carry := 0} with carry := 1}).trans
        ((gX _ 1).trans (gX st 0))
    · simp only [arithSwitch, reduceIte]
      exact (gA _ first 0).trans ((arLoopDown_obs g (fun i s => {s with a := s.a.set i (rd s.a (i - 1))}) (fun i s => gA s i _)
        (last - first) last {st with carry := 0}).trans (gX st 0))
    · simp only [arithSwitch, reduceIte]
      exact (arLoop_obs g (fun i s => {s with b := s.b.set i (rd s.a i)}) (fun i s => gB s i _)
        (last + 1 - first) first {st with carry := 0}).trans (gX st 0)
    · simp only [arithSwitch, reduceIte]
      exact (arLoop_obs g (fun i s => let r := do_sub s.carry (rd s.a i) (rd s.c i); {s with c := s.c.set i r.1, carry := r.2}) (fun i s => gCX s i _ _)
        (last + 1 - first) first {st with carry := 0}).trans (gX st 0)
    · simp only [arithSwitch, reduceIte]
      exact (arLoop_obs g (fun i s => let r := do_sub s.carry (rd s.c i) 0; {s with c := s.c.set i r.1, carry := r.2}) (fun i s => gCX s i _ _)
        (last + 1 - first) first {{st with carry := 0} with carry := 1}).trans
        ((gX _ 1).trans (gX st 0))
    · simp only [arithSwitch, reduceIte]
      exact (arLoop_obs g (fun i s => {s with a := s.a.set i (rd s.c i)}) (fun i s => gA s i _)
        (last + 1 - first) first {st with carry := 0}).trans (gX st 0)
    · simp only [arithSwitch, reduceIte]
      exact (arLoop_obs g (fun i s => if rd s.c i ≠ 0 then {s with carry := 1} else s) (fun i s => by dsimp only; split <;> first | exact gX _ _ | rfl)
        (last + 1 - first) first {st with carry := 0}).trans (gX st 0)
    · simp only [arithSwitch, reduceIte]
      exact (arLoop_obs g (addBodyAC) (fun i s => gCX s i _ _)
        (last + 1 - first) first {st with carry := 0}).trans (gX st 0)
    · simp only [arithSwitch, reduceIte]
      exact (arLoop_obs g (fun i s => let r := do_add s.carry (rd s.c i) 0; {s with c := s.c.set i r.1, carry := r.2}) (fun i s => gCX s i _ _)
        (last + 1 - first) first {{st with carry := 0} with carry := 1}).trans
        ((gX _ 1).trans (gX st 0))
    · simp only [arithSwitch, reduceIte]
      exact (arLoop_obs g (fun i s => let r := do_sub s.carry (rd s.a i) (rd s.b i); {s with t := s.t.set i r.1, carry := r.2}) (fun i s => gTX s i _ _)
        (last + 1 - first) first {st with carry := 0}).trans (gX st 0)
    · simp only [arithSwitch, reduceIte]
      exact (arLoop_obs g (fun i s => {s with b := s.b.set i (rd s.c i), c := s.c.set i (rd s.b i)}) (fun i s => gBC s i _ _)
        (last + 1 - first) first {st with carry := 0}).trans (gX st 0)
    · simp only [arithSwitch, reduceIte]
      exact (gC _ last 0).trans ((arLoop_obs g (fun i s => {s with c := s.c.set i (rd s.c (i + 1))}) (fun i s => gC s i _)
        (last - first) first {st with carry := 0}).trans (gX st 0))
    · simp only [arithSwitch, reduceIte]
      exact (arLoop_obs g (fun i s => if rd s.a i ≠ 0 then {s with carry := 0} else s) (fun i s => by dsimp only; split <;> first | exact gX _ _ | rfl)
        (last + 1 - first) first {{st with carry := 0} with carry := 1}).trans
        ((gX _ 1).trans (gX st 0))
    · simp only [arithSwitch, reduceIte]
      exact (gB _ last 0).trans ((arLoop_obs g (fun i s => {s with b := s.b.set i (rd s.b (i + 1))}) (fun i s => gB s i _)
        (last - first) first {st with carry := 0}).trans (gX st 0))
    · simp only [arithSwitch, reduceIte]
      exact (arLoop_obs g (addBodyCC) (fun i s => gCX s i _ _)
        (last + 1 - first) first {st with carry := 0}).trans (gX st 0)
    · simp only [arithSwitch, reduceIte]
      exact (gA _ last 0).trans ((arLoop_obs g (fun i s => {s with a := s.a.set i (rd s.a (i + 1))}) (fun i s => gA s i _)
        (last - first) first {st with carry := 0}).trans (gX st 0))
    · simp only [arithSwitch, reduceIte]
      exact (arLoop_obs g (fun i s => {s with a := s.a.set i 0}) (fun i s => gA s i _)
        (last + 1 - first) first {st with carry := 0}).trans (gX st 0)
    · simp only [arithSwitch, reduceIte]
      exact (arLoop_obs g (fun i s => let r := do_sub s.carry (rd s.a i) (rd s.b i); {s with a := s.a.set i r.1, carry := r.2}) (fun i s => gAX s i _ _)
        (last + 1 - first) first {st with carry := 0}).trans (gX st 0)
    · simp only [arithSwitch, reduceIte]
      exact (arLoop_obs g (fun i s => {s with a := s.a.set i (rd s.b i), b := s.b.set i (rd s.a i)}) (fun i s => gAB s i _ _)
        (last + 1 - first) first {st with carry := 0}).trans (gX st 0)
    · simp only [arithSwitch, reduceIte]
      exact (arLoop_obs g (fun i s => let r := do_sub s.carry (rd s.a i) (rd s.c i); {s with a := s.a.set i r.1, carry := r.2}) (fun i s => gAX s i _ _)
        (last + 1 - first) first {st with carry := 0}).trans (gX st 0)
    · simp only [arithSwitch, reduceIte]
      exact (arLoop_obs g (fun i s => let r := do_sub s.carry (rd s.a i) 0; {s with a := s.a.set i r.1, carry := r.2}) (fun i s => gAX s i _ _)
        (last + 1 - first) first {{st with carry := 0} with carry := 1}).trans
        ((gX _ 1).trans (gX st 0))
    · simp only [arithSwitch, reduceIte]
      exact (arLoop_obs g (addBodyAB) (fun i s => gAX s i _ _)
        (last + 1 - first) first {st with carry := 0}).trans (gX st 0)
    · simp only [arithSwitch, reduceIte]
      exact (arLoop_obs g (fun i s => {s with a := s.a.set i (rd s.c i), c := s.c.set i (rd s.a i)}) (fun i s => gAC s i _ _)
        (last + 1 - first) first {st with carry := 0}).trans (gX st 0)
    · simp only [arithSwitch, reduceIte]
      exact (arLoop_obs g (fun i s => let r := do_add s.carry (rd s.a i) (rd s.c i); {s with a := s.a.set i r.1, carry := r.2}) (fun i s => gAX s i _ _)
        (last + 1 - first) first {st with carry := 0}).trans (gX st 0)
    · simp only [arithSwitch, reduceIte]
      exact (arLoop_obs g (fun i s => let r := do_add s.carry (rd s.a i) 0; {s with a := s.a.set i r.1, carry := r.2}) (fun i s => gAX s i _ _)
        (last + 1 - first) first {{st with carry := 0} with carry := 1}).trans
        ((gX _ 1).trans (gX st 0))
  · simp only [arithSwitch]
    repeat rw [if_neg (by omega)]
    exact gX st 0


/-- Generic observation lemma for the eight special moves: any observation
`g` invariant under each of the eight branch bodies is preserved by
`specialStep`. -/
theorem specialStep_obs {α : Type} (g : Cpu → α)
    (gCM : ∀ s : Cpu, g {s with c := copyW s.c s.m, m := copyW s.m s.c} = g s)
    (gPUSH : ∀ s : Cpu,
      g {s with f := copyW s.f s.e, e := copyW s.e s.d, d := copyW s.d s.c} = g s)
    (gPOP : ∀ s : Cpu,
      g {s with a := copyW s.a s.d, d := copyW s.d s.e, e := copyW s.e s.f} = g s)
    (gMC : ∀ s : Cpu, g {s with c := copyW s.c s.m} = g s)
    (gROT : ∀ s : Cpu,
      g {s with c := copyW s.c s.d, d := copyW s.d s.e,
                e := copyW s.e s.f, f := copyW s.f s.c} = g s)
    (gCLR : ∀ (i : Nat) (s : Cpu),
      g {s with a := s.a.set i 0, b := s.b.set i 0, c := s.c.set i 0,
                d := s.d.set i 0, e := s.e.set i 0, f := s.f.set i 0,
                m := s.m.set i 0} = g s)
    (gDOFF : ∀ s : Cpu,
      g {s with display_enable := false, display_update := false} = g s)
    (gDTOG : ∀ s : Cpu, g {s with display_enable := !s.display_enable} = g s)
    (h l : Nat) (st : Cpu) : g (specialStep h l st) = g st := by
  simp only [specialStep]
  by_cases c1 : h &&& 0x03 = 0 ∧ l &&& 0xef = 0xa8
  · rw [if_neg (by omega), if_neg (by omega), if_neg (by omega), if_neg (by omega), if_neg (by omega), if_neg (by omega), if_neg (by omega), if_pos c1]
    exact gCM _
  by_cases c2 : h &&& 0x03 = 1 ∧ l &&& 0xef = 0x28
  · rw [if_neg (by omega), if_neg (by omega), if_neg (by omega), if_neg (by omega), if_neg (by omega), if_neg (by omega), if_pos c2, if_neg c1]
    exact gPUSH _
  by_cases c3 : h &&& 0x03 = 1 ∧ l &&& 0xef = 0xa8
  · rw [if_neg (by omega), if_neg (by omega), if_neg (by omega), if_neg (by omega), if_neg (by omega), if_pos c3, if_neg c2, if_neg c1]
    exact gPOP _
  by_cases c4 : h &&& 0x03 = 2 ∧ l &&& 0xef = 0xa8
  · rw [if_neg (by omega), if_neg (by omega), if_neg (by omega), if_neg (by omega), if_pos c4, if_neg c3, if_neg c2, if_neg c1]
    exact gMC _
  by_cases c5 : h &&& 0x03 = 3 ∧ l &&& 0xef = 0x28
  · rw [if_neg (by omega), if_neg (by omega), if_neg (by omega), if_pos c5, if_neg c4, if_neg c3, if_neg c2, if_neg c1]
    exact gROT _
  by_cases c6 : h &&& 0x03 = 3 ∧ l &&& 0xef = 0xa8
  · rw [if_neg (by omega), if_neg (by omega), if_pos c6, if_neg c5, if_neg c4, if_neg c3, if_neg c2, if_neg c1]
    exact arLoop_obs g _ gCLR 14 0 _
  by_cases c7 : h &&& 0x03 = 0 ∧ l &&& 0xef = 0x28
  · rw [if_neg (by omega), if_pos c7, if_neg c6, if_neg c5, if_neg c4, if_neg c3, if_neg c2, if_neg c1]
    exact gDOFF _
  by_cases c8 : h &&& 0x03 = 2 ∧ l &&& 0xef = 0x28
  · rw [if_pos c8, if_neg c7, if_neg c6, if_neg c5, if_neg c4, if_neg c3, if_neg c2, if_neg c1]
    exact gDTOG _
  rw [if_neg c8, if_neg c7, if_neg c6, if_neg c5, if_neg c4, if_neg c3, if_neg c2, if_neg c1]

theorem arithSwitch_s (op first last : Nat) (st : Cpu) :
    (arithSwitch op first last st).s = st.s :=
  arithSwitch_obs (fun c => c.s) (fun s x => rfl) (fun s i v => rfl)
    (fun s i v => rfl) (fun s i v => rfl) (fun s i v w => rfl)
    (fun s i v w => rfl) (fun s i v w => rfl) (fun s i v x => rfl)
    (fun s i v x => rfl) (fun s i v x => rfl) op first last st

theorem specialStep_s (h l : Nat) (st : Cpu) : (specialStep h l st).s = st.s :=
  specialStep_obs (fun c => c.s) (fun s => rfl) (fun s => rfl) (fun s => rfl)
    (fun s => rfl) (fun s => rfl) (fun i s => rfl) (fun s => rfl) (fun s => rfl)
    h l st

theorem arithStep_s (h l : Nat) (st : Cpu) : (arithStep h l st).s = st.s := by
  simp only [arithStep]
  split
  · exact arithSwitch_s _ _ _ _
  · rfl

theorem displayTail_s (sys : Sys) : (displayTail sys).cpu.s = sys.cpu.s := by
  unfold displayTail; split_ifs <;> rfl

theorem microStep_s (h l : Nat) (sys : Sys) :
    (microStep h l sys).cpu.s = (instrStep h l {sys.cpu with
      prevCarry := sys.cpu.carry, carry := 0,
      pc := (sys.cpu.pc + 1) % 256}).s := by
  simp only [microStep]
  rw [displayTail_s]

set_option maxRecDepth 100000 in
/-- C6 counterexample: holding key "1" (raw scan code 2) from power-on,
after two loop iterations the latched key 28 is pending and `S[0] = 1`;
after five iterations none of the fetched low bytes was the jump-on-key
opcode 0xD0 and the latched key 28 is still unconsumed, yet `S[0] = 0` —
the ROM's clear-all-status microinstruction (low byte 0x34, the fifth
fetch) cleared it without consuming the key. -/
theorem c6_key_pending_counterexample :
    rd (runLoop [2, 2] initSys).cpu.s 0 = 1 ∧
    (runLoop [2, 2] initSys).cpu.key_rom = 28 ∧
    (runObs [2, 2, 2, 2, 2] initSys).2 = [221, 168, 113, 206, 52] ∧
    (∀ x ∈ ([221, 168, 113, 206, 52] : List Nat), x ≠ 0xd0) ∧
    (runObs [2, 2, 2, 2, 2] initSys).1.cpu.key_rom = 28 ∧
    rd (runObs [2, 2, 2, 2, 2] initSys).1.cpu.s 0 = 0 :=
  ⟨rfl, rfl, rfl, by decide, rfl, rfl⟩

/-- C6 amended: within one microcycle, `S[0]` ends at 1 whenever it was 1
or a key is latched this cycle, provided the instruction is not the
jump-on-key (`L = 0xD0`), not a clear of status bit 0
(`L & 0x3F = 0x24` with selector 0) and not the clear-all-status
(`L & 0x3F = 0x34`); and the jump-on-key microinstruction always leaves
`S[0] = 0`. -/
theorem c6_key_pending_amended (h l : Nat) (sys : Sys)
    (hs : sys.cpu.s.length = 12) :
    ((rd sys.cpu.s 0 = 1 ∨ sys.cpu.key_code < 255) →
      l ≠ 0xd0 → ¬(l &&& 0x3f = 0x24 ∧ bitsel h l = 0) → l &&& 0x3f ≠ 0x34 →
      rd (microStep h l sys).cpu.s 0 = 1) ∧
    (l = 0xd0 → rd (microStep h l sys).cpu.s 0 = 0) := by
  constructor
  · intro hpend hd0 h24 h34
    rw [microStep_s]
    unfold instrStep
    rw [arithStep_s, branchStep_s, specialStep_s, miscStep_s, jumpKeyStep_s,
      romStep_s, retStep_s, jsbStep_s, keyLatch_s]
    dsimp only
    rw [if_neg hd0]
    have hS : rd (if sys.cpu.key_code < 255 then sys.cpu.s.set 0 1
        else sys.cpu.s) 0 = 1 := by
      rcases hpend with hp | hp
      · split
        · exact rd_set_self (by omega)
        · exact hp
      · rw [if_pos hp]; exact rd_set_self (by omega)
    have hSlen : (if sys.cpu.key_code < 255 then sys.cpu.s.set 0 1
        else sys.cpu.s).length = 12 := by
      split
      · rw [List.length_set]; exact hs
      · exact hs
    by_cases m04 : l &&& 0x3f = 0x04
    · rw [if_pos m04]
      by_cases hb0 : bitsel h l = 0
      · rw [hb0]
        exact rd_set_self (by omega)
      · rw [rd_set_ne (Ne.symm hb0)]
        exact hS
    · rw [if_neg m04]
      by_cases m24 : l &&& 0x3f = 0x24
      · rw [if_pos m24]
        have hb : bitsel h l ≠ 0 := fun hb0 => h24 ⟨m24, hb0⟩
        rw [rd_set_ne (Ne.symm hb)]
        exact hS
      · rw [if_neg m24, if_neg h34]
        exact hS
  · intro hd0
    subst hd0
    rw [microStep_s]
    unfold instrStep
    rw [arithStep_s, branchStep_s, specialStep_s, miscStep_s, jumpKeyStep_s,
      romStep_s, retStep_s, jsbStep_s, keyLatch_s]
    dsimp only
    rw [if_neg (by decide), if_neg (by decide), if_neg (by decide),
      if_pos rfl]
    refine rd_set_self ?_
    split
    · rw [List.length_set]; omega
    · omega

/-- Witness for the C6 amended theorem: a freshly latched key 28 under the
no-op instruction `(0, 0)` leaves `S[0] = 1`; under the jump-on-key
instruction `(0, 0xD0)` it leaves `S[0] = 0`. -/
theorem c6_key_pending_amended_witness :
    ({initSys with cpu := {initSys.cpu with key_code := 28}} : Sys).cpu.s.length = 12 ∧
    rd (microStep 0 0 {initSys with cpu := {initSys.cpu with key_code := 28}}).cpu.s 0 = 1 ∧
    rd (microStep 0 0xd0 {initSys with cpu := {initSys.cpu with key_code := 28}}).cpu.s 0 = 0 :=
  ⟨rfl,
   (c6_key_pending_amended 0 0
     {initSys with cpu := {initSys.cpu with key_code := 28}} rfl).1
     (Or.inr (by decide)) (by decide) (by decide) (by decide),
   (c6_key_pending_amended 0 0xd0
     {initSys with cpu := {initSys.cpu with key_code := 28}} rfl).2 rfl⟩

/-! ## C7: the PC-191 error trap -/

theorem displayTail_msgnr (sys : Sys) : (displayTail sys).msgnr = sys.msgnr := by
  unfold displayTail; split_ifs <;> rfl

theorem displayTail_cpu (sys : Sys) :
    (displayTail sys).cpu =
      if sys.cpu.display_enable then {sys.cpu with display_update := true}
      else if sys.cpu.display_update then
        {sys.cpu with display_update := false, islock := false, count := 0}
      else sys.cpu := by
  unfold displayTail; split_ifs <;> rfl

/-- C7: when the microcycle starts at `PC = 191` in ROM bank 0, the shell
is signaled with the error banner (`msgnr = 1`), and the CPU nevertheless
executes that microcycle exactly as it would without the trap: its whole
CPU state equals the one produced by the plain microcycle on the fetched
byte pair, so the signal affects only the display path. -/
theorem c7_trap_banner (sys : Sys) (hpc : sys.cpu.pc = 191)
    (hoff : sys.cpu.offset = 0) :
    (process_rom sys).msgnr = 1 ∧
    (process_rom sys).cpu =
      (microStep (fetchH sys.cpu) (fetchL sys.cpu) sys).cpu := by
  have ht : trapCheck sys = {sys with msgnr := 1} := by
    unfold trapCheck; rw [if_pos ⟨hpc, hoff⟩]
  constructor
  · simp only [process_rom, microStep]
    rw [displayTail_msgnr, ht]
  · simp only [process_rom, microStep]
    rw [displayTail_cpu, displayTail_cpu, ht]

/-- Witness for the C7 trap theorem at the power-on state moved to
`PC = 191`, bank 0. -/
theorem c7_trap_banner_witness :
    ({initSys with cpu := {initSys.cpu with pc := 191}} : Sys).cpu.pc = 191 ∧
    ((process_rom {initSys with cpu := {initSys.cpu with pc := 191}}).msgnr = 1 ∧
     (process_rom {initSys with cpu := {initSys.cpu with pc := 191}}).cpu =
       (microStep
         (fetchH ({initSys with cpu := {initSys.cpu with pc := 191}} : Sys).cpu)
         (fetchL ({initSys with cpu := {initSys.cpu with pc := 191}} : Sys).cpu)
         {initSys with cpu := {initSys.cpu with pc := 191}}).cpu) :=
  ⟨rfl, c7_trap_banner {initSys with cpu := {initSys.cpu with pc := 191}} rfl rfl⟩

/-! ## C8: the ROM image layout -/

set_option maxRecDepth 20000 in
/-- C8 counterexample: the ROM image is 1536 bytes, not the claimed 768. -/
theorem c8_rom_size_counterexample :
    rom.length = 1536 ∧ rom.length ≠ 768 :=
  ⟨rfl, by have h : rom.length = 1536 := rfl; omega⟩

set_option maxRecDepth 20000 in
/-- C8 amended: the ROM image is 1536 bytes holding 768 ten-bit
microinstructions as big-endian (H, L) byte pairs — three banks (0..2) of
256 instructions, 512 bytes each; every stored byte fits in 8 bits; and
the fetch of address `pc` in bank `offset` reads the bytes at indices
`offset * 512 + pc * 2` and `offset * 512 + pc * 2 + 1`. -/
theorem c8_rom_layout_amended (st : Cpu) :
    rom.length = 3 * (256 * 2) ∧
    rom.length = 2 * 768 ∧
    rom.all (fun x => decide (x < 256)) = true ∧
    fetchH st = rd rom (st.offset * 512 + st.pc * 2) ∧
    fetchL st = rd rom (st.offset * 512 + st.pc * 2 + 1) :=
  ⟨rfl, rfl, rfl, rfl, rfl⟩

/-! ## C9: the sign cell of the display projection -/

/-- C9 counterexample: with `A[13] = 8` and `B[13] = 8` the sign cell
(display cell 0) is blank (0), not the minus segment 0x40, although
`A[13] ≥ 8`; and with `A[13] = 0`, `B[13] = 2` it shows the decimal
point 0x80, not a blank. -/
theorem c9_sign_cell_counterexample :
    8 ≤ rd ((List.replicate 16 0).set 13 8) 13 ∧
    rd (renderStack ((List.replicate 16 0).set 13 8)
      ((List.replicate 16 0).set 13 8)) 0 = 0 ∧
    rd (renderStack (List.replicate 16 0)
      ((List.replicate 16 0).set 13 2)) 0 = 0x80 :=
  ⟨by decide, rfl, rfl⟩

/-- C9 amended: when `B[13] < 8` (so the blanking test fails), the sign
cell shows the minus segment exactly for `A[13] ≥ 8`, with the decimal
point OR-ed in exactly when `B[13] = 2`; when `B[13] ≥ 8` the cell is
blanked regardless of `A[13]` (see the counterexample). -/
theorem c9_sign_cell_amended (a b : List Nat) (hb13 : rd b 13 < 8) :
    rd (renderStack a b) 0 =
      (if rd a 13 ≥ 8 then 0x40 else 0) |||
      (if rd b 13 = 2 then 0x80 else 0) := by
  have hstep : rd (stackIter a b 13 8 0 (List.replicate 8 0)) 0 =
      (if rd a 13 ≥ 8 then 0x40 else 0) |||
      (if rd b 13 = 2 then 0x80 else 0) := by
    simp only [stackIter]
    rw [rd_set_ne (by omega : (0 : Nat) ≠ 7), rd_set_ne (by omega : (0 : Nat) ≠ 6),
      rd_set_ne (by omega : (0 : Nat) ≠ 5), rd_set_ne (by omega : (0 : Nat) ≠ 4),
      rd_set_ne (by omega : (0 : Nat) ≠ 3), rd_set_ne (by omega : (0 : Nat) ≠ 2),
      rd_set_ne (by omega : (0 : Nat) ≠ 1), rd_set_self (by decide)]
    rw [if_neg (show ¬(rd b 13 ≥ 8) by omega)]
    simp only [if_true]
    by_cases hb2 : rd b 13 = 2
    · rw [if_pos hb2, if_pos hb2]
    · rw [if_neg hb2, if_neg hb2, Nat.or_zero]
  simp only [renderStack]
  split
  · rw [rd_set_ne (by omega : (0 : Nat) ≠ 7), rd_set_ne (by omega : (0 : Nat) ≠ 6),
      rd_set_ne (by omega : (0 : Nat) ≠ 5)]
    exact hstep
  · exact hstep

/-- Witness for the C9 amended theorem: `A[13] = 9`, `B = 0`. -/
theorem c9_sign_cell_amended_witness :
    rd (List.replicate 16 0 : List Nat) 13 < 8 ∧
    rd (renderStack ((List.replicate 16 0).set 13 9) (List.replicate 16 0)) 0 =
      (if rd ((List.replicate 16 0).set 13 9) 13 ≥ 8 then 0x40 else 0) |||
      (if rd (List.replicate 16 0 : List Nat) 13 = 2 then 0x80 else 0) :=
  ⟨by decide, c9_sign_cell_amended _ _ (by decide)⟩

/-! ## C10: storage safety (pointer mask and register extents) -/

theorem arLoop_inv (P : Cpu → Prop) (body : Nat → Cpu → Cpu)
    (hb : ∀ i s, P s → P (body i s)) :
    ∀ (n first : Nat) (s : Cpu), P s → P (arLoop body first n s) := by
  intro n
  induction n with
  | zero => intro first s hs; exact hs
  | succ k ih =>
    intro first s hs
    exact ih (first + 1) (body first s) (hb first s hs)

theorem copyW_length (dst src : List Nat) (hd : dst.length = 16)
    (hs : src.length = 16) : (copyW dst src).length = 16 := by
  simp only [copyW, List.length_append, List.length_take, List.length_drop,
    hd, hs]
  omega

theorem miscStep_p (h l : Nat) (st : Cpu) :
    (miscStep h l st).p =
      (if l &&& 0x3f = 0x0c then bitsel h l
       else if l &&& 0x3f = 0x3c then (st.p + 1) &&& 0x0f
       else if l &&& 0x3f = 0x1c then decP st.p
       else if l &&& 0x3f = 0x18 then decP st.p
       else st.p) := by
  simp only [miscStep]
  by_cases h14 : l &&& 0x3f = 0x14
  · rw [if_neg (show ¬(l &&& 0x3f = 0x18) by rw [h14]; decide),
      if_neg (show ¬(l &&& 0x3f = 0x1c) by rw [h14]; decide),
      if_neg (show ¬(l &&& 0x3f = 0x3c) by rw [h14]; decide),
      if_neg (show ¬(l &&& 0x3f = 0x0c) by rw [h14]; decide),
      if_neg (show ¬(l &&& 0x3f = 0x2c) by rw [h14]; decide),
      if_neg (show ¬(l &&& 0x3f = 0x34) by rw [h14]; decide),
      if_neg (show ¬(l &&& 0x3f = 0x24) by rw [h14]; decide),
      if_neg (show ¬(l &&& 0x3f = 0x04) by rw [h14]; decide),
      if_pos h14,
      if_neg (show ¬(l &&& 0x3f = 0x0c) by rw [h14]; decide),
      if_neg (show ¬(l &&& 0x3f = 0x3c) by rw [h14]; decide),
      if_neg (show ¬(l &&& 0x3f = 0x1c) by rw [h14]; decide),
      if_neg (show ¬(l &&& 0x3f = 0x18) by rw [h14]; decide)]
  by_cases h04 : l &&& 0x3f = 0x04
  · rw [if_neg (show ¬(l &&& 0x3f = 0x18) by rw [h04]; decide),
      if_neg (show ¬(l &&& 0x3f = 0x1c) by rw [h04]; decide),
      if_neg (show ¬(l &&& 0x3f = 0x3c) by rw [h04]; decide),
      if_neg (show ¬(l &&& 0x3f = 0x0c) by rw [h04]; decide),
      if_neg (show ¬(l &&& 0x3f = 0x2c) by rw [h04]; decide),
      if_neg (show ¬(l &&& 0x3f = 0x34) by rw [h04]; decide),
      if_neg (show ¬(l &&& 0x3f = 0x24) by rw [h04]; decide),
      if_pos h04,
      if_neg h14,
      if_neg (show ¬(l &&& 0x3f = 0x0c) by rw [h04]; decide),
      if_neg (show ¬(l &&& 0x3f = 0x3c) by rw [h04]; decide),
      if_neg (show ¬(l &&& 0x3f = 0x1c) by rw [h04]; decide),
      if_neg (show ¬(l &&& 0x3f = 0x18) by rw [h04]; decide)]
  by_cases h24 : l &&& 0x3f = 0x24
  · rw [if_neg (show ¬(l &&& 0x3f = 0x18) by rw [h24]; decide),
      if_neg (show ¬(l &&& 0x3f = 0x1c) by rw [h24]; decide),
      if_neg (show ¬(l &&& 0x3f = 0x3c) by rw [h24]; decide),
      if_neg (show ¬(l &&& 0x3f = 0x0c) by rw [h24]; decide),
      if_neg (show ¬(l &&& 0x3f = 0x2c) by rw [h24]; decide),
      if_neg (show ¬(l &&& 0x3f = 0x34) by rw [h24]; decide),
      if_pos h24,
      if_neg h04,
      if_neg h14,
      if_neg (show ¬(l &&& 0x3f = 0x0c) by rw [h24]; decide),
      if_neg (show ¬(l &&& 0x3f = 0x3c) by rw [h24]; decide),
      if_neg (show ¬(l &&& 0x3f = 0x1c) by rw [h24]; decide),
      if_neg (show ¬(l &&& 0x3f = 0x18) by rw [h24]; decide)]
  by_cases h34 : l &&& 0x3f = 0x34
  · rw [if_neg (show ¬(l &&& 0x3f = 0x18) by rw [h34]; decide),
      if_neg (show ¬(l &&& 0x3f = 0x1c) by rw [h34]; decide),
      if_neg (show ¬(l &&& 0x3f = 0x3c) by rw [h34]; decide),
      if_neg (show ¬(l &&& 0x3f = 0x0c) by rw [h34]; decide),
      if_neg (show ¬(l &&& 0x3f = 0x2c) by rw [h34]; decide),
      if_pos h34,
      if_neg h24,
      if_neg h04,
      if_neg h14,
      if_neg (show ¬(l &&& 0x3f = 0x0c) by rw [h34]; decide),
      if_neg (show ¬(l &&& 0x3f = 0x3c) by rw [h34]; decide),
      if_neg (show ¬(l &&& 0x3f = 0x1c) by rw [h34]; decide),
      if_neg (show ¬(l &&& 0x3f = 0x18) by rw [h34]; decide)]
  by_cases h2c : l &&& 0x3f = 0x2c
  · rw [if_neg (show ¬(l &&& 0x3f = 0x18) by rw [h2c]; decide),
      if_neg (show ¬(l &&& 0x3f = 0x1c) by rw [h2c]; decide),
      if_neg (show ¬(l &&& 0x3f = 0x3c) by rw [h2c]; decide),
      if_neg (show ¬(l &&& 0x3f = 0x0c) by rw [h2c]; decide),
      if_pos h2c,
      if_neg h34,
      if_neg h24,
      if_neg h04,
      if_neg h14,
      if_neg (show ¬(l &&& 0x3f = 0x0c) by rw [h2c]; decide),
      if_neg (show ¬(l &&& 0x3f = 0x3c) by rw [h2c]; decide),
      if_neg (show ¬(l &&& 0x3f = 0x1c) by rw [h2c]; decide),
      if_neg (show ¬(l &&& 0x3f = 0x18) by rw [h2c]; decide)]
  by_cases h0c : l &&& 0x3f = 0x0c
  · rw [if_neg (show ¬(l &&& 0x3f = 0x18) by rw [h0c]; decide),
      if_neg (show ¬(l &&& 0x3f = 0x1c) by rw [h0c]; decide),
      if_neg (show ¬(l &&& 0x3f = 0x3c) by rw [h0c]; decide),
      if_pos h0c,
      if_neg h2c,
      if_neg h34,
      if_neg h24,
      if_neg h04,
      if_neg h14,
      if_pos h0c]
  by_cases h3c : l &&& 0x3f = 0x3c
  · rw [if_neg (show ¬(l &&& 0x3f = 0x18) by rw [h3c]; decide),
      if_neg (show ¬(l &&& 0x3f = 0x1c) by rw [h3c]; decide),
      if_pos h3c,
      if_neg h0c,
      if_neg h2c,
      if_neg h34,
      if_neg h24,
      if_neg h04,
      if_neg h14,
      if_neg h0c,
      if_pos h3c]
  by_cases h1c : l &&& 0x3f = 0x1c
  · rw [if_neg (show ¬(l &&& 0x3f = 0x18) by rw [h1c]; decide),
      if_pos h1c,
      if_neg h3c,
      if_neg h0c,
      if_neg h2c,
      if_neg h34,
      if_neg h24,
      if_neg h04,
      if_neg h14,
      if_neg h0c,
      if_neg h3c,
      if_pos h1c]
  by_cases h18 : l &&& 0x3f = 0x18
  · rw [if_pos h18,
      if_neg h1c,
      if_neg h3c,
      if_neg h0c,
      if_neg h2c,
      if_neg h34,
      if_neg h24,
      if_neg h04,
      if_neg h14,
      if_neg h0c,
      if_neg h3c,
      if_neg h1c,
      if_pos h18]
  rw [if_neg h18,
    if_neg h1c,
    if_neg h3c,
    if_neg h0c,
    if_neg h2c,
    if_neg h34,
    if_neg h24,
    if_neg h04,
    if_neg h14,
    if_neg h0c,
    if_neg h3c,
    if_neg h1c,
    if_neg h18]

theorem miscStep_inv (h l : Nat) (P : Cpu → Prop)
    (H14 : ∀ s : Cpu, P s → P {s with carry := rd s.s (bitsel h l)})
    (H04 : ∀ s : Cpu, P s → P {s with s := s.s.set (bitsel h l) 1})
    (H24 : ∀ s : Cpu, P s → P {s with s := s.s.set (bitsel h l) 0})
    (H34 : ∀ s : Cpu, P s → P {s with s := List.replicate 12 0})
    (H2C : ∀ s : Cpu, P s → P {s with carry := if s.p = bitsel h l then 1 else 0})
    (H0C : ∀ s : Cpu, P s → P {s with p := bitsel h l})
    (H3C : ∀ s : Cpu, P s → P {s with p := (s.p + 1) &&& 0x0f})
    (H1C : ∀ s : Cpu, P s → P {s with p := decP s.p})
    (H18 : ∀ s : Cpu, P s → P {s with c := s.c.set s.p (((l >>> 6) ||| (h <<< 2)) % 256), p := decP s.p})
    (st : Cpu) (hP : P st) : P (miscStep h l st) := by
  simp only [miscStep]
  by_cases h14 : l &&& 0x3f = 0x14
  · rw [if_neg (show ¬(l &&& 0x3f = 0x18) by rw [h14]; decide),
      if_neg (show ¬(l &&& 0x3f = 0x1c) by rw [h14]; decide),
      if_neg (show ¬(l &&& 0x3f = 0x3c) by rw [h14]; decide),
      if_neg (show ¬(l &&& 0x3f = 0x0c) by rw [h14]; decide),
      if_neg (show ¬(l &&& 0x3f = 0x2c) by rw [h14]; decide),
      if_neg (show ¬(l &&& 0x3f = 0x34) by rw [h14]; decide),
      if_neg (show ¬(l &&& 0x3f = 0x24) by rw [h14]; decide),
      if_neg (show ¬(l &&& 0x3f = 0x04) by rw [h14]; decide),
      if_pos h14]
    exact H14 st hP
  by_cases h04 : l &&& 0x3f = 0x04
  · rw [if_neg (show ¬(l &&& 0x3f = 0x18) by rw [h04]; decide),
      if_neg (show ¬(l &&& 0x3f = 0x1c) by rw [h04]; decide),
      if_neg (show ¬(l &&& 0x3f = 0x3c) by rw [h04]; decide),
      if_neg (show ¬(l &&& 0x3f = 0x0c) by rw [h04]; decide),
      if_neg (show ¬(l &&& 0x3f = 0x2c) by rw [h04]; decide),
      if_neg (show ¬(l &&& 0x3f = 0x34) by rw [h04]; decide),
      if_neg (show ¬(l &&& 0x3f = 0x24) by rw [h04]; decide),
      if_pos h04,
      if_neg h14]
    exact H04 st hP
  by_cases h24 : l &&& 0x3f = 0x24
  · rw [if_neg (show ¬(l &&& 0x3f = 0x18) by rw [h24]; decide),
      if_neg (show ¬(l &&& 0x3f = 0x1c) by rw [h24]; decide),
      if_neg (show ¬(l &&& 0x3f = 0x3c) by rw [h24]; decide),
      if_neg (show ¬(l &&& 0x3f = 0x0c) by rw [h24]; decide),
      if_neg (show ¬(l &&& 0x3f = 0x2c) by rw [h24]; decide),
      if_neg (show ¬(l &&& 0x3f = 0x34) by rw [h24]; decide),
      if_pos h24,
      if_neg h04,
      if_neg h14]
    exact H24 st hP
  by_cases h34 : l &&& 0x3f = 0x34
  · rw [if_neg (show ¬(l &&& 0x3f = 0x18) by rw [h34]; decide),
      if_neg (show ¬(l &&& 0x3f = 0x1c) by rw [h34]; decide),
      if_neg (show ¬(l &&& 0x3f = 0x3c) by rw [h34]; decide),
      if_neg (show ¬(l &&& 0x3f = 0x0c) by rw [h34]; decide),
      if_neg (show ¬(l &&& 0x3f = 0x2c) by rw [h34]; decide),
      if_pos h34,
      if_neg h24,
      if_neg h04,
      if_neg h14]
    exact H34 st hP
  by_cases h2c : l &&& 0x3f = 0x2c
  · rw [if_neg (show ¬(l &&& 0x3f = 0x18) by rw [h2c]; decide),
      if_neg (show ¬(l &&& 0x3f = 0x1c) by rw [h2c]; decide),
      if_neg (show ¬(l &&& 0x3f = 0x3c) by rw [h2c]; decide),
      if_neg (show ¬(l &&& 0x3f = 0x0c) by rw [h2c]; decide),
      if_pos h2c,
      if_neg h34,
      if_neg h24,
      if_neg h04,
      if_neg h14]
    exact H2C st hP
  by_cases h0c : l &&& 0x3f = 0x0c
  · rw [if_neg (show ¬(l &&& 0x3f = 0x18) by rw [h0c]; decide),
      if_neg (show ¬(l &&& 0x3f = 0x1c) by rw [h0c]; decide),
      if_neg (show ¬(l &&& 0x3f = 0x3c) by rw [h0c]; decide),
      if_pos h0c,
      if_neg h2c,
      if_neg h34,
      if_neg h24,
      if_neg h04,
      if_neg h14]
    exact H0C st hP
  by_cases h3c : l &&& 0x3f = 0x3c
  · rw [if_neg (show ¬(l &&& 0x3f = 0x18) by rw [h3c]; decide),
      if_neg (show ¬(l &&& 0x3f = 0x1c) by rw [h3c]; decide),
      if_pos h3c,
      if_neg h0c,
      if_neg h2c,
      if_neg h34,
      if_neg h24,
      if_neg h04,
      if_neg h14]
    exact H3C st hP
  by_cases h1c : l &&& 0x3f = 0x1c
  · rw [if_neg (show ¬(l &&& 0x3f = 0x18) by rw [h1c]; decide),
      if_pos h1c,
      if_neg h3c,
      if_neg h0c,
      if_neg h2c,
      if_neg h34,
      if_neg h24,
      if_neg h04,
      if_neg h14]
    exact H1C st hP
  by_cases h18 : l &&& 0x3f = 0x18
  · rw [if_pos h18,
      if_neg h1c,
      if_neg h3c,
      if_neg h0c,
      if_neg h2c,
      if_neg h34,
      if_neg h24,
      if_neg h04,
      if_neg h14]
    exact H18 st hP
  rw [if_neg h18,
    if_neg h1c,
    if_neg h3c,
    if_neg h0c,
    if_neg h2c,
    if_neg h34,
    if_neg h24,
    if_neg h04,
    if_neg h14]
  exact hP

theorem specialStep_inv (P : Cpu → Prop)
    (HCM : ∀ s : Cpu, P s → P {s with c := copyW s.c s.m, m := copyW s.m s.c})
    (HPUSH : ∀ s : Cpu,
      P s → P {s with f := copyW s.f s.e, e := copyW s.e s.d, d := copyW s.d s.c})
    (HPOP : ∀ s : Cpu,
      P s → P {s with a := copyW s.a s.d, d := copyW s.d s.e, e := copyW s.e s.f})
    (HMC : ∀ s : Cpu, P s → P {s with c := copyW s.c s.m})
    (HROT : ∀ s : Cpu,
      P s → P {s with c := copyW s.c s.d, d := copyW s.d s.e,
                      e := copyW s.e s.f, f := copyW s.f s.c})
    (HCLR : ∀ (i : Nat) (s : Cpu),
      P s → P {s with a := s.a.set i 0, b := s.b.set i 0, c := s.c.set i 0,
                      d := s.d.set i 0, e := s.e.set i 0, f := s.f.set i 0,
                      m := s.m.set i 0})
    (HDOFF : ∀ s : Cpu,
      P s → P {s with display_enable := false, display_update := false})
    (HDTOG : ∀ s : Cpu, P s → P {s with display_enable := !s.display_enable})
    (h l : Nat) (st : Cpu) (hP : P st) : P (specialStep h l st) := by
  simp only [specialStep]
  by_cases c1 : h &&& 0x03 = 0 ∧ l &&& 0xef = 0xa8
  · rw [if_neg (by omega), if_neg (by omega), if_neg (by omega), if_neg (by omega), if_neg (by omega), if_neg (by omega), if_neg (by omega), if_pos c1]
    exact HCM st hP
  by_cases c2 : h &&& 0x03 = 1 ∧ l &&& 0xef = 0x28
  · rw [if_neg (by omega), if_neg (by omega), if_neg (by omega), if_neg (by omega), if_neg (by omega), if_neg (by omega), if_pos c2, if_neg c1]
    exact HPUSH st hP
  by_cases c3 : h &&& 0x03 = 1 ∧ l &&& 0xef = 0xa8
  · rw [if_neg (by omega), if_neg (by omega), if_neg (by omega), if_neg (by omega), if_neg (by omega), if_pos c3, if_neg c2, if_neg c1]
    exact HPOP st hP
  by_cases c4 : h &&& 0x03 = 2 ∧ l &&& 0xef = 0xa8
  · rw [if_neg (by omega), if_neg (by omega), if_neg (by omega), if_neg (by omega), if_pos c4, if_neg c3, if_neg c2, if_neg c1]
    exact HMC st hP
  by_cases c5 : h &&& 0x03 = 3 ∧ l &&& 0xef = 0x28
  · rw [if_neg (by omega), if_neg (by omega), if_neg (by omega), if_pos c5, if_neg c4, if_neg c3, if_neg c2, if_neg c1]
    exact HROT st hP
  by_cases c6 : h &&& 0x03 = 3 ∧ l &&& 0xef = 0xa8
  · rw [if_neg (by omega), if_neg (by omega), if_pos c6, if_neg c5, if_neg c4, if_neg c3, if_neg c2, if_neg c1]
    exact arLoop_inv P _ HCLR 14 0 st hP
  by_cases c7 : h &&& 0x03 = 0 ∧ l &&& 0xef = 0x28
  · rw [if_neg (by omega), if_pos c7, if_neg c6, if_neg c5, if_neg c4, if_neg c3, if_neg c2, if_neg c1]
    exact HDOFF st hP
  by_cases c8 : h &&& 0x03 = 2 ∧ l &&& 0xef = 0x28
  · rw [if_pos c8, if_neg c7, if_neg c6, if_neg c5, if_neg c4, if_neg c3, if_neg c2, if_neg c1]
    exact HDTOG st hP
  rw [if_neg c8, if_neg c7, if_neg c6, if_neg c5, if_neg c4, if_neg c3, if_neg c2, if_neg c1]
  exact hP

theorem jsbStep_p (h l : Nat) (st : Cpu) : (jsbStep h l st).p = st.p := by
  unfold jsbStep; split <;> rfl

theorem retStep_p (l : Nat) (st : Cpu) : (retStep l st).p = st.p := by
  unfold retStep; split <;> rfl

theorem romStep_p (h l : Nat) (st : Cpu) : (romStep h l st).p = st.p := by
  unfold romStep; split <;> rfl

theorem jumpKeyStep_p (l : Nat) (st : Cpu) : (jumpKeyStep l st).p = st.p := by
  unfold jumpKeyStep; split <;> rfl

theorem branchStep_p (h l : Nat) (st : Cpu) : (branchStep h l st).p = st.p := by
  unfold branchStep; split <;> rfl

theorem specialStep_p (h l : Nat) (st : Cpu) : (specialStep h l st).p = st.p :=
  specialStep_obs (fun c => c.p) (fun s => rfl) (fun s => rfl) (fun s => rfl)
    (fun s => rfl) (fun s => rfl) (fun i s => rfl) (fun s => rfl) (fun s => rfl)
    h l st

theorem arithSwitch_p (op first last : Nat) (st : Cpu) :
    (arithSwitch op first last st).p = st.p :=
  arithSwitch_obs (fun c => c.p) (fun s x => rfl) (fun s i v => rfl)
    (fun s i v => rfl) (fun s i v => rfl) (fun s i v w => rfl)
    (fun s i v w => rfl) (fun s i v w => rfl) (fun s i v x => rfl)
    (fun s i v x => rfl) (fun s i v x => rfl) op first last st

theorem arithStep_p (h l : Nat) (st : Cpu) : (arithStep h l st).p = st.p := by
  simp only [arithStep]
  split
  · exact arithSwitch_p _ _ _ _
  · rfl

theorem instrStep_p_lt (h l : Nat) (st : Cpu) (hp : st.p < 16) :
    (instrStep h l st).p < 16 := by
  unfold instrStep
  rw [arithStep_p, branchStep_p, specialStep_p, miscStep_p, jumpKeyStep_p,
    romStep_p, retStep_p, jsbStep_p, keyLatch_p]
  split_ifs
  · exact bitsel_lt h l
  · exact incP_lt _
  · exact decP_lt _
  · exact decP_lt _
  · exact hp

theorem keyLatch_lenInv (st : Cpu) (hinv : LenInv st) : LenInv (keyLatch st) := by
  unfold keyLatch
  split
  · obtain ⟨i1, i2, i3, i4, i5, i6, i7, i8, i9⟩ := hinv
    exact ⟨i1, i2, i3, i4, i5, i6, i7, i8, by rw [List.length_set]; exact i9⟩
  · exact hinv

theorem jumpKeyStep_lenInv (l : Nat) (st : Cpu) (hinv : LenInv st) :
    LenInv (jumpKeyStep l st) := by
  unfold jumpKeyStep
  split
  · obtain ⟨i1, i2, i3, i4, i5, i6, i7, i8, i9⟩ := hinv
    exact ⟨i1, i2, i3, i4, i5, i6, i7, i8, by rw [List.length_set]; exact i9⟩
  · exact hinv

theorem arithSwitch_lenInv (op first last : Nat) (st : Cpu) (hinv : LenInv st) :
    LenInv (arithSwitch op first last st) := by
  have hEq := arithSwitch_obs
    (fun c => (c.a.length, c.b.length, c.c.length, c.d.length, c.e.length,
      c.f.length, c.m.length, c.t.length, c.s.length))
    (fun s x => rfl)
    (fun s i v => by simp [List.length_set])
    (fun s i v => by simp [List.length_set])
    (fun s i v => by simp [List.length_set])
    (fun s i v w => by simp [List.length_set])
    (fun s i v w => by simp [List.length_set])
    (fun s i v w => by simp [List.length_set])
    (fun s i v x => by simp [List.length_set])
    (fun s i v x => by simp [List.length_set])
    (fun s i v x => by simp [List.length_set])
    op first last st
  simp only [Prod.mk.injEq] at hEq
  obtain ⟨e1, e2, e3, e4, e5, e6, e7, e8, e9⟩ := hEq
  obtain ⟨i1, i2, i3, i4, i5, i6, i7, i8, i9⟩ := hinv
  exact ⟨by omega, by omega, by omega, by omega, by omega, by omega, by omega,
    by omega, by omega⟩

theorem instrStep_lenInv (h l : Nat) (st : Cpu) (hinv : LenInv st) :
    LenInv (instrStep h l st) := by
  unfold instrStep
  have h1 : LenInv (keyLatch st) := keyLatch_lenInv st hinv
  have h2 : LenInv (jsbStep h l (keyLatch st)) := by
    unfold jsbStep; split <;> exact h1
  have h3 : LenInv (retStep l (jsbStep h l (keyLatch st))) := by
    unfold retStep; split <;> exact h2
  have h4 : LenInv (romStep h l (retStep l (jsbStep h l (keyLatch st)))) := by
    unfold romStep; split <;> exact h3
  have h5 := jumpKeyStep_lenInv l _ h4
  have h6 : LenInv (miscStep h l (jumpKeyStep l (romStep h l (retStep l
      (jsbStep h l (keyLatch st)))))) := by
    refine miscStep_inv h l LenInv ?_ ?_ ?_ ?_ ?_ ?_ ?_ ?_ ?_ _ h5
    · exact fun s hs => hs
    · intro s hs
      obtain ⟨i1, i2, i3, i4, i5, i6, i7, i8, i9⟩ := hs
      exact ⟨i1, i2, i3, i4, i5, i6, i7, i8, by rw [List.length_set]; exact i9⟩
    · intro s hs
      obtain ⟨i1, i2, i3, i4, i5, i6, i7, i8, i9⟩ := hs
      exact ⟨i1, i2, i3, i4, i5, i6, i7, i8, by rw [List.length_set]; exact i9⟩
    · intro s hs
      obtain ⟨i1, i2, i3, i4, i5, i6, i7, i8, _⟩ := hs
      exact ⟨i1, i2, i3, i4, i5, i6, i7, i8, by simp⟩
    · exact fun s hs => hs
    · exact fun s hs => hs
    · exact fun s hs => hs
    · exact fun s hs => hs
    · intro s hs
      obtain ⟨i1, i2, i3, i4, i5, i6, i7, i8, i9⟩ := hs
      exact ⟨i1, i2, by rw [List.length_set]; exact i3, i4, i5, i6, i7, i8, i9⟩
  have h7 : LenInv (specialStep h l (miscStep h l (jumpKeyStep l (romStep h l
      (retStep l (jsbStep h l (keyLatch st))))))) := by
    refine specialStep_inv LenInv ?_ ?_ ?_ ?_ ?_ ?_ ?_ ?_ h l _ h6
    · intro s hs
      obtain ⟨i1, i2, i3, i4, i5, i6, i7, i8, i9⟩ := hs
      exact ⟨i1, i2, copyW_length _ _ i3 i7, i4, i5, i6,
        copyW_length _ _ i7 i3, i8, i9⟩
    · intro s hs
      obtain ⟨i1, i2, i3, i4, i5, i6, i7, i8, i9⟩ := hs
      exact ⟨i1, i2, i3, copyW_length _ _ i4 i3, copyW_length _ _ i5 i4,
        copyW_length _ _ i6 i5, i7, i8, i9⟩
    · intro s hs
      obtain ⟨i1, i2, i3, i4, i5, i6, i7, i8, i9⟩ := hs
      exact ⟨copyW_length _ _ i1 i4, i2, i3, copyW_length _ _ i4 i5,
        copyW_length _ _ i5 i6, i6, i7, i8, i9⟩
    · intro s hs
      obtain ⟨i1, i2, i3, i4, i5, i6, i7, i8, i9⟩ := hs
      exact ⟨i1, i2, copyW_length _ _ i3 i7, i4, i5, i6, i7, i8, i9⟩
    · intro s hs
      obtain ⟨i1, i2, i3, i4, i5, i6, i7, i8, i9⟩ := hs
      exact ⟨i1, i2, copyW_length _ _ i3 i4, copyW_length _ _ i4 i5,
        copyW_length _ _ i5 i6, copyW_length _ _ i6 i3, i7, i8, i9⟩
    · intro i s hs
      obtain ⟨i1, i2, i3, i4, i5, i6, i7, i8, i9⟩ := hs
      refine ⟨?_, ?_, ?_, ?_, ?_, ?_, ?_, i8, i9⟩ <;>
        rw [List.length_set] <;> assumption
    · exact fun s hs => hs
    · exact fun s hs => hs
  have h8 : LenInv (branchStep h l (specialStep h l (miscStep h l (jumpKeyStep l
      (romStep h l (retStep l (jsbStep h l (keyLatch st)))))))) := by
    unfold branchStep; split <;> exact h7
  simp only [arithStep]
  split
  · exact arithSwitch_lenInv _ _ _ _ h8
  · exact h8

theorem microStep_p_lt (h l : Nat) (sys : Sys) (hp : sys.cpu.p < 16) :
    (microStep h l sys).cpu.p < 16 := by
  simp only [microStep]
  rw [displayTail_cpu]
  split_ifs
  · exact instrStep_p_lt h l _ hp
  · exact instrStep_p_lt h l _ hp
  · exact instrStep_p_lt h l _ hp

theorem microStep_lenInv (h l : Nat) (sys : Sys) (hinv : LenInv sys.cpu) :
    LenInv (microStep h l sys).cpu := by
  simp only [microStep]
  rw [displayTail_cpu]
  split_ifs
  · exact instrStep_lenInv h l _ hinv
  · exact instrStep_lenInv h l _ hinv
  · exact instrStep_lenInv h l _ hinv

theorem trapCheck_cpu (sys : Sys) : (trapCheck sys).cpu = sys.cpu := by
  unfold trapCheck; split <;> rfl

/-- C10: storage safety. If the pointer register P is below 16 and the
register file has its declared extent, then after a full `process_rom`
call P is still below 16 (every P write is masked to 4 bits or comes from
the 4-bit selector) and every register still has its declared extent;
moreover the slice codes 0 (`P..P`) and 4 (`0..P`) of the arithmetic
family produce in-bounds indices for the 16-entry registers. -/
theorem c10_storage_safety (sys : Sys) (hp : sys.cpu.p < 16)
    (hinv : LenInv sys.cpu) :
    (process_rom sys).cpu.p < 16 ∧ LenInv (process_rom sys).cpu ∧
    (sliceOf 0 sys.cpu.p).1 < 16 ∧ (sliceOf 0 sys.cpu.p).2 < 16 ∧
    (sliceOf 4 sys.cpu.p).1 < 16 ∧ (sliceOf 4 sys.cpu.p).2 < 16 := by
  refine ⟨?_, ?_, hp, hp, ?_, hp⟩
  · simp only [process_rom]
    exact microStep_p_lt _ _ _ (by rw [trapCheck_cpu]; exact hp)
  · simp only [process_rom]
    exact microStep_lenInv _ _ _ (by rw [trapCheck_cpu]; exact hinv)
  · show (0 : Nat) < 16
    decide

/-- Witness for the C10 safety theorem at the power-on state. -/
theorem c10_storage_safety_witness :
    initSys.cpu.p < 16 ∧ LenInv initSys.cpu ∧
    ((process_rom initSys).cpu.p < 16 ∧ LenInv (process_rom initSys).cpu ∧
     (sliceOf 0 initSys.cpu.p).1 < 16 ∧ (sliceOf 0 initSys.cpu.p).2 < 16 ∧
     (sliceOf 4 initSys.cpu.p).1 < 16 ∧ (sliceOf 4 initSys.cpu.p).2 < 16) :=
  ⟨by decide, ⟨rfl, rfl, rfl, rfl, rfl, rfl, rfl, rfl, rfl⟩,
   c10_storage_safety initSys (by decide)
     ⟨rfl, rfl, rfl, rfl, rfl, rfl, rfl, rfl, rfl⟩⟩

/-- Witness for the C1 theorem: instruction `(1, 0xC2)` — opcode 0x0E
(`A+C→C`) over slice code 0 (`P..P`) at the power-on state. -/
theorem c1_add_slice_correct_witness :
    (0xc2 : Nat) < 256 ∧ (0xc2 : Nat) &&& 0x03 = 0x02 ∧
    initSys.cpu.p < 16 ∧
    sliceOf ((0xc2 >>> 2) &&& 0x07) initSys.cpu.p = (0, 0) ∧
    opOf 1 0xc2 = 0x0e ∧
    (sliceVal (microStep 1 0xc2 initSys).cpu.c 0 1 =
        (sliceVal initSys.cpu.a 0 1 + sliceVal initSys.cpu.c 0 1) % 10 ^ 1 ∧
      ((microStep 1 0xc2 initSys).cpu.carry = 1 ↔
        10 ^ 1 - 1 < sliceVal initSys.cpu.a 0 1 + sliceVal initSys.cpu.c 0 1)) :=
  ⟨by decide, by decide, by decide, by decide, by decide,
   (c1_add_slice_correct 1 0xc2 0 0 1 initSys (by decide) (by decide)
     (by decide) rfl rfl rfl (by decide) rfl).1 (by decide)
     (fun i h1 h2 => by
       have hi : i = 0 := by omega
       subst hi
       exact ⟨by decide, by decide⟩)⟩

/-- Witness for the C4 amended theorem at the literal push/pop byte pairs
`(1, 0x28)` and `(1, 0xA8)` on `c4Sys`. -/
theorem c4_push_pop_amended_witness :
    (microStep 1 0xa8 (microStep 1 0x28 c4Sys)).cpu.d = c4Sys.cpu.d ∧
    (microStep 1 0xa8 (microStep 1 0x28 c4Sys)).cpu.e = c4Sys.cpu.e ∧
    (microStep 1 0xa8 (microStep 1 0x28 c4Sys)).cpu.c = c4Sys.cpu.c ∧
    (microStep 1 0xa8 (microStep 1 0x28 c4Sys)).cpu.f =
      copyW c4Sys.cpu.f c4Sys.cpu.e ∧
    (microStep 1 0xa8 (microStep 1 0x28 c4Sys)).cpu.a =
      copyW c4Sys.cpu.a c4Sys.cpu.c :=
  c4_push_pop_amended 1 0x28 1 0xa8 c4Sys (by decide) (by decide) (by decide)
    (by decide) (by decide) (by decide) rfl rfl rfl
